import Mathlib

/-! Verification development for `glib/poppler-document.cc`.

A shallow embedding of the glib wrapper of poppler: the Info-dictionary string
and date decoders, document opening and page lookup, the outline cursor
(`PopplerIndexIter`) and the font cursor (`PopplerFontsIter`).

Conventions of the embedding:

* a `char` / byte is a `Nat`; casts such as `(unsigned char) c` and `c & 0xff`
  are written `c % 256`;
* a `GooString` is its counted byte sequence (it may contain NUL bytes);
  a C string (`gchar *`) is the byte sequence before its terminating NUL, and a
  NULL pointer is `none`;
* library routines the file calls (`g_convert`, `g_ucs4_to_utf8`, `sscanf`)
  are modelled after their documented behaviour; collaborators of the
  embedding whose result depends on the environment (`mktime`, the PDF parser,
  the font scanner) are parameters;
* heap objects that are shared or mutated through pointers live in explicit
  heaps, addressed by their position.
-/

namespace Poppler

/-! ## Strings, objects and dictionaries -/

/-- A `GooString`: the counted sequence of its chars. -/
abbrev GooString := List Nat

/-- Embeds `GooString::getChar(i)`; the buffer is NUL-terminated, so the position
right after the last char reads as 0. -/
def GooString.getChar (s : GooString) (i : Nat) : Nat := s.getD i 0

/-- Embeds `GooString::getLength()`. -/
def GooString.getLength (s : GooString) : Nat := s.length

/-- A PDF object, as far as the Info-dictionary accessors tell them apart:
`isString()` holds of `objString` only, and a key that is missing gives
`objNull`. -/
inductive Object where
  | objString (s : GooString)
  | objNull
  | objOther
  deriving DecidableEq, Repr

/-- A PDF dictionary: keys with their values. -/
abbrev Dict := List (String × Object)

/-- Embeds `Dict::lookup(key, &obj)`: the value stored under `key`, or the null object. -/
def Dict.lookup (d : Dict) (key : String) : Object :=
  match d.find? (fun kv => kv.1 == key) with
  | some kv => kv.2
  | none => .objNull

/-- The `GValue` a property getter fills in. `unset` is the value as handed to
the getter, before any `g_value_set_*` call. -/
inductive GValue where
  | unset
  | string (s : Option (List Nat))
  | int (n : Int)
  deriving DecidableEq, Repr

/-- The bytes of a C string stored in a buffer: everything before the first NUL. -/
def cstr (buf : List Nat) : List Nat := buf.takeWhile (fun c => c != 0)

/-- Models `g_value_set_string (value, result)`: stores a copy of the C string
`result` (or NULL). -/
def g_value_set_string (_value : GValue) (result : Option (List Nat)) : GValue :=
  .string (result.map cstr)

/-! ## Text conversion routines of the platform library -/

/-- Models `g_unichar_to_utf8`: the UTF-8 bytes of one code point (up to six bytes,
as glib writes them). Shifts and masks are written as division and remainder. -/
def g_unichar_to_utf8 (c : Nat) : List Nat :=
  if c < 0x80 then [c]
  else if c < 0x800 then [0xC0 + c / 0x40, 0x80 + c % 0x40]
  else if c < 0x10000 then
    [0xE0 + c / 0x1000, 0x80 + c / 0x40 % 0x40, 0x80 + c % 0x40]
  else if c < 0x200000 then
    [0xF0 + c / 0x40000, 0x80 + c / 0x1000 % 0x40, 0x80 + c / 0x40 % 0x40, 0x80 + c % 0x40]
  else if c < 0x4000000 then
    [0xF8 + c / 0x1000000, 0x80 + c / 0x40000 % 0x40, 0x80 + c / 0x1000 % 0x40,
     0x80 + c / 0x40 % 0x40, 0x80 + c % 0x40]
  else
    [0xFC + c / 0x40000000 % 0x4, 0x80 + c / 0x1000000 % 0x40, 0x80 + c / 0x40000 % 0x40,
     0x80 + c / 0x1000 % 0x40, 0x80 + c / 0x40 % 0x40, 0x80 + c % 0x40]

/-- UTF-8 bytes of a sequence of code points. -/
def utf8_of (cps : List Nat) : List Nat := cps.flatMap g_unichar_to_utf8

/-- Models `g_ucs4_to_utf8 (str, -1, NULL, NULL, NULL)`: converts the code points
before the first 0 of `str`; fails (NULL) when one of them is `>= 0x80000000`. -/
def g_ucs4_to_utf8 (str : List Nat) : Option (List Nat) :=
  let cs := str.takeWhile (fun c => c != 0)
  if cs.any (fun c => decide (0x80000000 ≤ c)) then none else some (utf8_of cs)

/-- Big-endian 16-bit code units of a byte sequence; `none` on an odd length. -/
def utf16be_units : List Nat → Option (List Nat)
  | [] => some []
  | [_] => none
  | hi :: lo :: rest =>
    match utf16be_units rest with
    | some us => some (((hi % 256) * 256 + lo % 256) :: us)
    | none => none

/-- Code points of a sequence of UTF-16 code units; `none` on an unpaired
surrogate. -/
def utf16_code_points : List Nat → Option (List Nat)
  | [] => some []
  | [u] => if 0xD800 ≤ u ∧ u < 0xE000 then none else some [u]
  | u :: v :: rest =>
    if 0xD800 ≤ u ∧ u < 0xDC00 then
      if 0xDC00 ≤ v ∧ v < 0xE000 then
        match utf16_code_points rest with
        | some cs => some ((0x10000 + (u - 0xD800) * 0x400 + (v - 0xDC00)) :: cs)
        | none => none
      else none
    else if 0xDC00 ≤ u ∧ u < 0xE000 then none
    else
      match utf16_code_points (v :: rest) with
      | some cs => some (u :: cs)
      | none => none

/-- Code points a byte sequence denotes in UTF-16BE, when it is well formed. -/
def utf16be_decode (bytes : List Nat) : Option (List Nat) :=
  match utf16be_units bytes with
  | some us => utf16_code_points us
  | none => none

/-- Models `g_convert (str, len, "UTF-8", "UTF-16BE", NULL, NULL, NULL)`: the UTF-8
buffer for the `len` bytes of `str`, NULL when they are not well-formed
UTF-16BE. -/
def g_convert_utf16be_to_utf8 (bytes : List Nat) : Option (List Nat) :=
  (utf16be_decode bytes).map utf8_of

/-! ## The Info-dictionary string accessor -/

/-- Embeds `has_unicode_marker`: the first two chars are `0xFE 0xFF`. -/
def has_unicode_marker (string : GooString) : Bool :=
  (string.getChar 0 % 256 == 0xfe) && (string.getChar 1 % 256 == 0xff)

/-- The loop of `info_dict_get_string` filling `ucs4_temp`: one table entry
per char, then the terminating 0. -/
def ucs4_temp (pdfDocEncoding : Nat → Nat) (goo_value : GooString) : List Nat :=
  goo_value.map (fun c => pdfDocEncoding (c % 256)) ++ [0]

/-- Embeds `info_dict_get_string (info_dict, key, value)`. The table
`pdfDocEncoding` (declared in `PDFDocEncoding.h`) is a parameter. -/
def info_dict_get_string (pdfDocEncoding : Nat → Nat) (info_dict : Dict) (key : String)
    (value : GValue) : GValue :=
  match info_dict.lookup key with
  | .objString goo_value =>
    let result :=
      if has_unicode_marker goo_value then
        g_convert_utf16be_to_utf8 (goo_value.drop 2)
      else
        g_ucs4_to_utf8 (ucs4_temp pdfDocEncoding goo_value)
    g_value_set_string value result
  | _ => value

/-! ## `sscanf` with `%Nd` directives -/

/-- Models `isspace` in the C locale. -/
def isspace (c : Nat) : Bool := c == 32 || (9 ≤ c && c ≤ 13)

/-- Models `isdigit`. -/
def isdigit (c : Nat) : Bool := 48 ≤ c && c ≤ 57

/-- Value of a run of decimal digit chars. -/
def decimal (ds : List Nat) : Int :=
  ds.foldl (fun acc d => acc * 10 + ((d : Int) - 48)) 0

/-- Outcome of one `%Nd` directive. -/
inductive Conversion where
  | assigned (v : Int) (rest : List Nat)
  | matching_failure
  | input_failure
  deriving DecidableEq, Repr

/-- One `%Nd` directive of `sscanf` on the C string `s`: white space is
skipped, then an optional sign and decimal digits are read, at most `width`
chars in all. End of input before any char is an input failure; no digit is a
matching failure. -/
def scan_d (width : Nat) (s : List Nat) : Conversion :=
  match s.dropWhile isspace with
  | [] => .input_failure
  | c :: cs =>
    let signed := c == 45 || c == 43
    let body := if signed then cs else c :: cs
    let w := if signed then width - 1 else width
    let ds := (body.take w).takeWhile isdigit
    if ds.isEmpty then .matching_failure
    else .assigned (if c == 45 then - decimal ds else decimal ds) (body.drop ds.length)

/-- What a `sscanf` call leaves: its return value and the values it assigned,
in order. -/
structure Scanned where
  items : Int
  vals : List Int
  deriving DecidableEq, Repr

/-- Models `sscanf (s, "%w1d%w2d...", ...)` for the widths `ws`, with `done` the
values assigned so far. The return value is the number of assignments, or
`EOF` (-1) on an input failure before the first one. -/
def sscanf_d : List Nat → List Nat → List Int → Scanned
  | [], _, done => ⟨done.length, done⟩
  | w :: ws, s, done =>
    match scan_d w s with
    | .assigned v rest => sscanf_d ws rest (done ++ [v])
    | .matching_failure => ⟨done.length, done⟩
    | .input_failure => ⟨if done.isEmpty then -1 else done.length, done⟩

/-! ## The Info-dictionary date accessor -/

/-- The `struct tm`. -/
structure Tm where
  tm_sec : Int
  tm_min : Int
  tm_hour : Int
  tm_mday : Int
  tm_mon : Int
  tm_year : Int
  tm_wday : Int
  tm_yday : Int
  tm_isdst : Int
  deriving DecidableEq, Repr

/-- The `struct tm` that `info_dict_get_date` fills in before `mktime`. -/
def fill_tm (year mon day hour min sec : Int) : Tm :=
  { tm_year := year - 1900, tm_mon := mon - 1, tm_mday := day, tm_hour := hour,
    tm_min := min, tm_sec := sec, tm_wday := -1, tm_yday := -1, tm_isdst := -1 }

/-- The step `date_string += 2` when the string starts with `D:`. -/
def skip_prefix_D (date_string : List Nat) : List Nat :=
  if date_string.getD 0 0 == 68 && date_string.getD 1 0 == 58 then date_string.drop 2
  else date_string

/-- The scanning part of `info_dict_get_date`, from the C string `date_string`
up to the `struct tm` handed to `mktime`; `none` is an early `return`. -/
def date_to_tm (date_string : List Nat) : Option Tm :=
  let date_string := skip_prefix_D date_string
  let first := sscanf_d [4, 2, 2, 2, 2, 2] date_string []
  if first.items ≠ 6 then none
  else
    match first.vals with
    | [year, mon, day, hour, min, sec] =>
      if year < 1930 ∧ date_string.length > 14 then
        let second := sscanf_d [2, 3, 2, 2, 2, 2, 2] date_string []
        if second.items ≠ 7 then none
        else
          match second.vals with
          | [century, years_since_1900, mon, day, hour, min, sec] =>
            some (fill_tm (century * 100 + years_since_1900) mon day hour min sec)
          | _ => none
      else some (fill_tm year mon day hour min sec)
    | _ => none

/-- Models `g_strndup (str, n)`: the C string of at most `n` chars of `str`. -/
def g_strndup (str : List Nat) (n : Nat) : List Nat := cstr (str.take n)

/-- Conversion of a `time_t` to `GTime` (a 32-bit signed integer). -/
def to_GTime (t : Int) : Int := (t + 2147483648) % 4294967296 - 2147483648

/-- Models `g_value_set_int (value, result)` with `result` a `GTime`. -/
def g_value_set_int (_value : GValue) (result : Int) : GValue := .int (to_GTime result)

/-- The buffer `date_string` of `info_dict_get_date` for the string value
`goo_value`: converted from UTF-16BE after the marker (NULL when that fails),
otherwise duplicated. -/
def date_string_of (goo_value : GooString) : Option (List Nat) :=
  if has_unicode_marker goo_value then
    g_convert_utf16be_to_utf8 (goo_value.drop 2)
  else
    some (g_strndup goo_value goo_value.getLength)

/-- Embeds `info_dict_get_date (info_dict, key, value)`. `mktime` is the C library
routine, a parameter: it gives the calendar time (-1 on failure) and the
normalised `struct tm` it leaves behind. The result is `none` when the code
reads `date_string [0]` through the NULL pointer of a failed `g_convert`. -/
def info_dict_get_date (mktime : Tm → Int × Tm) (info_dict : Dict) (key : String)
    (value : GValue) : Option GValue :=
  match info_dict.lookup key with
  | .objString goo_value =>
    match date_string_of goo_value with
    | none => none
    | some buf =>
      match date_to_tm (cstr buf) with
      | none => some value
      | some time =>
        let first := mktime time
        if first.1 = -1 then some value
        else some (g_value_set_int value (mktime first.2).1)
  | _ => some value

/-! ## A reference `mktime`: the C library routine with `TZ=UTC` -/

/-- Days from 1970-01-01 to the civil date `y`-`m`-`d` (`m` in 1..12). -/
def days_from_civil (y m d : Int) : Int :=
  let y1 := if m ≤ 2 then y - 1 else y
  let era := y1 / 400
  let yoe := y1 - era * 400
  let doy := (153 * (if m > 2 then m - 3 else m + 9) + 2) / 5 + d - 1
  let doe := yoe * 365 + yoe / 4 - yoe / 100 + doy
  era * 146097 + doe - 719468

/-- The civil date (year, month 1..12, day) of a day number since 1970-01-01. -/
def civil_from_days (z0 : Int) : Int × Int × Int :=
  let z := z0 + 719468
  let era := z / 146097
  let doe := z - era * 146097
  let yoe := (doe - doe / 1460 + doe / 36524 - doe / 146096) / 365
  let doy := doe - (365 * yoe + yoe / 4 - yoe / 100)
  let mp := (5 * doy + 2) / 153
  let d := doy - (153 * mp + 2) / 5 + 1
  let m := if mp < 10 then mp + 3 else mp - 9
  (if m ≤ 2 then yoe + era * 400 + 1 else yoe + era * 400, m, d)

/-- Models `mktime` in the UTC time zone: the fields of `time` are not restricted to
their normal ranges (ISO C 7.27.2.3); out-of-range values carry over into the
next larger unit. The second component is the normalised `struct tm`. -/
def mktime_utc (time : Tm) : Int × Tm :=
  let year := time.tm_year + 1900 + time.tm_mon / 12
  let days := days_from_civil year (time.tm_mon % 12 + 1) 1 + (time.tm_mday - 1)
  let t := days * 86400 + time.tm_hour * 3600 + time.tm_min * 60 + time.tm_sec
  let day := t / 86400
  let secs := t % 86400
  let ymd := civil_from_days day
  (t, { tm_year := ymd.1 - 1900, tm_mon := ymd.2.1 - 1, tm_mday := ymd.2.2,
        tm_hour := secs / 3600, tm_min := secs % 3600 / 60, tm_sec := secs % 60,
        tm_wday := (day + 4) % 7, tm_yday := day - days_from_civil ymd.1 1 1,
        tm_isdst := 0 })

/-- Chars of an ASCII literal. -/
def chars (s : String) : List Nat := s.toList.map Char.toNat

/-! ## Opening a document and looking up pages -/

/-- A `Page *` of the catalog, named by a number. -/
abbrev Page := Nat

/-- The part of `Catalog` the wrapper uses: `getPage (i)` for a 1-based page
number. -/
structure Catalog where
  getPage : Int → Page

/-- An `Outline`: `getItems()`, the address of the list of top-level items
in the heap of lists, or NULL. -/
structure Outline where
  items : Option Nat

/-- The part of `PDFDoc` the wrapper uses: `isOk()`, `getErrorCode()`,
`getNumPages()`, `getCatalog()`, `getOutline()`. -/
structure PDFDoc where
  ok : Bool
  errCode : Int
  numPages : Int
  catalog : Catalog
  outline : Option Outline

/-- A `PopplerDocument`. Reference counts and the output device are not part
of the embedding. -/
structure PopplerDocument where
  doc : PDFDoc

/-- Error domains of the `GError`s set while opening. -/
inductive ErrorDomain where
  | POPPLER_ERROR
  | G_FILE_ERROR
  | G_CONVERT_ERROR
  deriving DecidableEq, Repr

/-- Error codes of the `GError`s set while opening. -/
inductive ErrorCode where
  | POPPLER_ERROR_ENCRYPTED
  | G_FILE_ERROR_FAILED
  | other (n : Nat)
  deriving DecidableEq, Repr

/-- A `GError`. -/
structure GError where
  domain : ErrorDomain
  code : ErrorCode
  message : String
  deriving DecidableEq, Repr

/-- The message `"Failed to load document (error %d) '%s'\n"`. -/
def load_error_message (err : Int) (uri : String) : String :=
  "Failed to load document (error " ++ toString err ++ ") " ++ String.singleton (Char.ofNat 39)
    ++ uri ++ String.singleton (Char.ofNat 39) ++ "\n"

/-- Embeds `poppler_document_new_from_file (uri, password, error)`: the returned
document (or NULL) and the error set. Parameters: `g_filename_from_uri`, the
`PDFDoc` constructor (file name, owner password, user password) and the
constant `errEncrypted` of `ErrorCodes.h`. The one-time set-up of
`globalParams` has no part in the result and is left out. -/
def poppler_document_new_from_file (g_filename_from_uri : String → Except GError String)
    (new_PDFDoc : String → Option String → Option String → PDFDoc) (errEncrypted : Int)
    (uri : String) (password : Option String) : Option PopplerDocument × Option GError :=
  match g_filename_from_uri uri with
  | .error e => (none, some e)
  | .ok filename =>
    let password_g := password
    let newDoc := new_PDFDoc filename password_g password_g
    if !newDoc.ok then
      let err := newDoc.errCode
      if err = errEncrypted then
        (none, some ⟨.POPPLER_ERROR, .POPPLER_ERROR_ENCRYPTED, "Document is encrypted."⟩)
      else
        (none, some ⟨.G_FILE_ERROR, .G_FILE_ERROR_FAILED, load_error_message err uri⟩)
    else (some ⟨newDoc⟩, none)

/-- Embeds `poppler_document_get_n_pages`. -/
def poppler_document_get_n_pages (document : PopplerDocument) : Int :=
  document.doc.numPages

/-- A `PopplerPage`. -/
structure PopplerPage where
  document : PopplerDocument
  page : Page
  index : Int

/-- Modelled from the spec: `_poppler_page_new` (defined in `poppler-page.cc`,
not part of this file) makes the page object of a document for a catalog page
and its 0-based external index. -/
def _poppler_page_new (document : PopplerDocument) (page : Page) (index : Int) : PopplerPage :=
  ⟨document, page, index⟩

/-- Embeds `poppler_document_get_page (document, index)`: the page returned (or
NULL), and the page numbers asked of the catalog, in order. -/
def poppler_document_get_page (document : PopplerDocument) (index : Int) :
    Option PopplerPage × List Int :=
  if ¬ (0 ≤ index ∧ index < poppler_document_get_n_pages document) then (none, [])
  else
    let catalog := document.doc.catalog
    let page := catalog.getPage (index + 1)
    (some (_poppler_page_new document page index), [index + 1])

/-! ## The outline cursor `PopplerIndexIter` -/

/-- An `OutlineItem`: title (code points), `isOpen()`, `hasKids()`, and the
list `getKids()` gives once `open()` has run (an address in the heap of
lists, or NULL). -/
structure OutlineItem where
  title : List Nat
  startsOpen : Bool
  hasKids : Bool
  kids : Option Nat
  deriving DecidableEq, Repr

/-- The `struct _PopplerIndexIter`; `items` is the address of a `GooList`. -/
structure PopplerIndexIter where
  document : PopplerDocument
  items : Nat
  index : Int

/-- The heap of the outline cursors: the `GooList`s of outline items and the
`PopplerIndexIter` structs, each addressed by position. -/
structure IndexHeap where
  lists : List (List OutlineItem)
  iters : List PopplerIndexIter

/-- Embeds `poppler_index_iter_new (document)`: the address of the new cursor, or
NULL, and the heap after the call. -/
def poppler_index_iter_new (h : IndexHeap) (document : PopplerDocument) :
    Option Nat × IndexHeap :=
  match document.doc.outline with
  | none => (none, h)
  | some outline =>
    match outline.items with
    | none => (none, h)
    | some items =>
      (some h.iters.length,
        { h with iters := h.iters ++ [{ document := document, items := items, index := 0 }] })

/-- Embeds `poppler_index_iter_copy (iter)`: the address of the new cursor (NULL for
a NULL argument) and the heap after the call; `none` when `iter` does not
point to a cursor. -/
def poppler_index_iter_copy (h : IndexHeap) (iter : Option Nat) :
    Option (Option Nat × IndexHeap) :=
  match iter with
  | none => some (none, h)
  | some p =>
    match h.iters[p]? with
    | none => none
    | some it => some (some h.iters.length, { h with iters := h.iters ++ [it] })

/-- Embeds `poppler_index_iter_get_child (parent)`: the address of the cursor over
the children of the current item, or NULL; `none` when the cursor is
dereferenced outside its list. -/
def poppler_index_iter_get_child (h : IndexHeap) (parent : Option Nat) :
    Option (Option Nat × IndexHeap) :=
  match parent with
  | none => some (none, h)
  | some p =>
    match h.iters[p]? with
    | none => none
    | some it =>
      match h.lists[it.items]? with
      | none => none
      | some items =>
        if it.index < 0 then none
        else
          match items[it.index.toNat]? with
          | none => none
          | some item =>
            match item.hasKids, item.kids with
            | true, some kids =>
              some (some h.iters.length,
                { h with iters := h.iters ++ [{ document := it.document, items := kids, index := 0 }] })
            | _, _ => some (none, h)

/-- Embeds `poppler_index_iter_next (iter)`: the return value and the heap after the
call; `none` when `iter` does not point to a cursor over a list. -/
def poppler_index_iter_next (h : IndexHeap) (iter : Option Nat) : Option (Bool × IndexHeap) :=
  match iter with
  | none => some (false, h)
  | some p =>
    match h.iters[p]? with
    | none => none
    | some it =>
      match h.lists[it.items]? with
      | none => none
      | some items =>
        let index := it.index + 1
        some (if index ≥ items.length then false else true,
          { h with iters := h.iters.set p { it with index := index } })

/-- Successive calls `poppler_index_iter_next (iter)` on the cursor at `p`:
the values returned, in order, and the final heap. -/
def index_iter_next_calls : Nat → IndexHeap → Nat → Option (List Bool × IndexHeap)
  | 0, h, _ => some ([], h)
  | k + 1, h, p =>
    match poppler_index_iter_next h (some p) with
    | none => none
    | some (r, h1) =>
      match index_iter_next_calls k h1 p with
      | none => none
      | some (rs, h2) => some (r :: rs, h2)

/-! ## Font scanning and the font cursor `PopplerFontsIter` -/

/-- A `FontInfo` record: the font name (NULL when the font has none) and the
reference that identifies the font. -/
structure FontInfo where
  name : Option GooString
  ref : Int × Int
  deriving DecidableEq, Repr

/-- Modelled from the spec: the copy constructor `FontInfo (FontInfo&)`
(defined in `FontInfo.cc`, not part of this file), a full value-copy of the
record. -/
def FontInfo.copy (info : FontInfo) : FontInfo :=
  { name := info.name, ref := info.ref }

/-- The `struct _PopplerFontsIter`; `items` is the address of a `GooList`. -/
structure PopplerFontsIter where
  items : Nat
  index : Int
  deriving DecidableEq, Repr

/-- The heap of the font cursors: the `GooList`s of font records and the
`PopplerFontsIter` structs, each addressed by position. -/
structure FontsHeap where
  lists : List (List FontInfo)
  iters : List PopplerFontsIter
  deriving DecidableEq, Repr

/-- Embeds `poppler_fonts_iter_new (items)`. -/
def poppler_fonts_iter_new (h : FontsHeap) (items : Nat) : Nat × FontsHeap :=
  (h.iters.length, { h with iters := h.iters ++ [{ items := items, index := 0 }] })

/-- Embeds `poppler_fonts_iter_next (iter)`: the return value and the heap after the
call; `none` when `iter` does not point to a cursor over a list. -/
def poppler_fonts_iter_next (h : FontsHeap) (iter : Option Nat) : Option (Bool × FontsHeap) :=
  match iter with
  | none => some (false, h)
  | some p =>
    match h.iters[p]? with
    | none => none
    | some it =>
      match h.lists[it.items]? with
      | none => none
      | some items =>
        let index := it.index + 1
        some (if index ≥ items.length then false else true,
          { h with iters := h.iters.set p { it with index := index } })

/-- Embeds `poppler_fonts_iter_copy (iter)`: the address of the new cursor (NULL for
a NULL argument) and the heap after the call; `none` when `iter` does not
point to a cursor over a list. The new list is allocated at the end of the
heap and filled with a copy of each record, in order. -/
def poppler_fonts_iter_copy (h : FontsHeap) (iter : Option Nat) :
    Option (Option Nat × FontsHeap) :=
  match iter with
  | none => some (none, h)
  | some p =>
    match h.iters[p]? with
    | none => none
    | some it =>
      match h.lists[it.items]? with
      | none => none
      | some items =>
        let new_items := h.lists.length
        some (some h.iters.length,
          { lists := h.lists ++ [items.map FontInfo.copy],
            iters := h.iters ++ [{ it with items := new_items }] })

/-- A `PopplerFontInfo`: what `scanner->scan (n_pages)` returns in the
scanner's present state, the fresh list of records found or NULL. -/
structure PopplerFontInfo where
  scan : Int → Option (List FontInfo)

/-- Embeds `poppler_font_info_scan (font_info, n_pages, iter)`. The argument `iter`
is `none` for a NULL pointer and otherwise holds what `*iter` was; the result
is the return value, what `*iter` is after the call, and the heap. A list
that is deleted right away never enters the heap. -/
def poppler_font_info_scan (h : FontsHeap) (font_info : PopplerFontInfo) (n_pages : Int)
    (iter : Option (Option Nat)) : Bool × Option (Option Nat) × FontsHeap :=
  match iter with
  | none => (false, none, h)
  | some _ =>
    match font_info.scan n_pages with
    | none => (false, some none, h)
    | some items =>
      if items.length = 0 then (true, some none, h)
      else
        let h1 : FontsHeap := { h with lists := h.lists ++ [items] }
        let r := poppler_fonts_iter_new h1 h.lists.length
        (true, some (some r.1), r.2)

/-! ## The PDFDocEncoding table and the decoding the specification describes -/

/-- Modelled from the spec: the entries of the table `pdfDocEncoding`
(declared in `PDFDocEncoding.h`, not part of this file), the byte to
code-point mapping PDFDocEncoding of the PDF specification; a code the
encoding leaves unassigned, such as 0x00, has the entry 0. -/
def pdfDocEncodingTable : List Nat :=
  [0x0000, 0x0000, 0x0000, 0x0000, 0x0000, 0x0000, 0x0000, 0x0000,
   0x0000, 0x0009, 0x000a, 0x0000, 0x000c, 0x000d, 0x0000, 0x0000,
   0x0000, 0x0000, 0x0000, 0x0000, 0x0000, 0x0000, 0x0000, 0x0000,
   0x02d8, 0x02c7, 0x02c6, 0x02d9, 0x02dd, 0x02db, 0x02da, 0x02dc,
   0x0020, 0x0021, 0x0022, 0x0023, 0x0024, 0x0025, 0x0026, 0x0027,
   0x0028, 0x0029, 0x002a, 0x002b, 0x002c, 0x002d, 0x002e, 0x002f,
   0x0030, 0x0031, 0x0032, 0x0033, 0x0034, 0x0035, 0x0036, 0x0037,
   0x0038, 0x0039, 0x003a, 0x003b, 0x003c, 0x003d, 0x003e, 0x003f,
   0x0040, 0x0041, 0x0042, 0x0043, 0x0044, 0x0045, 0x0046, 0x0047,
   0x0048, 0x0049, 0x004a, 0x004b, 0x004c, 0x004d, 0x004e, 0x004f,
   0x0050, 0x0051, 0x0052, 0x0053, 0x0054, 0x0055, 0x0056, 0x0057,
   0x0058, 0x0059, 0x005a, 0x005b, 0x005c, 0x005d, 0x005e, 0x005f,
   0x0060, 0x0061, 0x0062, 0x0063, 0x0064, 0x0065, 0x0066, 0x0067,
   0x0068, 0x0069, 0x006a, 0x006b, 0x006c, 0x006d, 0x006e, 0x006f,
   0x0070, 0x0071, 0x0072, 0x0073, 0x0074, 0x0075, 0x0076, 0x0077,
   0x0078, 0x0079, 0x007a, 0x007b, 0x007c, 0x007d, 0x007e, 0x0000,
   0x2022, 0x2020, 0x2021, 0x2026, 0x2014, 0x2013, 0x0192, 0x2044,
   0x2039, 0x203a, 0x2212, 0x2030, 0x201e, 0x201c, 0x201d, 0x2018,
   0x2019, 0x201a, 0x2122, 0xfb01, 0xfb02, 0x0141, 0x0152, 0x0160,
   0x0178, 0x017d, 0x0131, 0x0142, 0x0153, 0x0161, 0x017e, 0x0000,
   0x20ac, 0x00a1, 0x00a2, 0x00a3, 0x00a4, 0x00a5, 0x00a6, 0x00a7,
   0x00a8, 0x00a9, 0x00aa, 0x00ab, 0x00ac, 0x0000, 0x00ae, 0x00af,
   0x00b0, 0x00b1, 0x00b2, 0x00b3, 0x00b4, 0x00b5, 0x00b6, 0x00b7,
   0x00b8, 0x00b9, 0x00ba, 0x00bb, 0x00bc, 0x00bd, 0x00be, 0x00bf,
   0x00c0, 0x00c1, 0x00c2, 0x00c3, 0x00c4, 0x00c5, 0x00c6, 0x00c7,
   0x00c8, 0x00c9, 0x00ca, 0x00cb, 0x00cc, 0x00cd, 0x00ce, 0x00cf,
   0x00d0, 0x00d1, 0x00d2, 0x00d3, 0x00d4, 0x00d5, 0x00d6, 0x00d7,
   0x00d8, 0x00d9, 0x00da, 0x00db, 0x00dc, 0x00dd, 0x00de, 0x00df,
   0x00e0, 0x00e1, 0x00e2, 0x00e3, 0x00e4, 0x00e5, 0x00e6, 0x00e7,
   0x00e8, 0x00e9, 0x00ea, 0x00eb, 0x00ec, 0x00ed, 0x00ee, 0x00ef,
   0x00f0, 0x00f1, 0x00f2, 0x00f3, 0x00f4, 0x00f5, 0x00f6, 0x00f7,
   0x00f8, 0x00f9, 0x00fa, 0x00fb, 0x00fc, 0x00fd, 0x00fe, 0x00ff]

/-- Modelled from the spec: `pdfDocEncoding[b]` for the table above. -/
def pdfDocEncoding (b : Nat) : Nat := pdfDocEncodingTable.getD b 0

/-- The code points the specification assigns to the string value `s`: with
the marker `0xFE 0xFF` in front, the bytes after it read as UTF-16BE;
otherwise the table entry of each byte, in order. -/
def spec_code_points (enc : Nat → Nat) (s : GooString) : Option (List Nat) :=
  if s.take 2 = [0xFE, 0xFF] then utf16be_decode (s.drop 2) else some (s.map enc)

/-- The text (UTF-8) the specification assigns to the string value `s`. -/
def spec_string_text (enc : Nat → Nat) (s : GooString) : Option (List Nat) :=
  (spec_code_points enc s).map utf8_of

/-- The list `l` is made of exactly `n` decimal digit chars. -/
def is_digits (n : Nat) (l : List Nat) : Prop := l.length = n ∧ ∀ c ∈ l, isdigit c = true

instance (n : Nat) (l : List Nat) : Decidable (is_digits n l) := by
  unfold is_digits; infer_instance

/-- The chars `D:` that may precede a date. -/
def prefix_D : List Nat := [68, 58]

/-! ## The cursor invariant and a sample outline -/

/-- The cursor at the address `p` points into its sibling list:
`0 <= index < length`. -/
def cursor_in_range (h : IndexHeap) (p : Nat) : Bool :=
  match h.iters[p]? with
  | none => false
  | some it =>
    match h.lists[it.items]? with
    | none => false
    | some items => decide (0 ≤ it.index ∧ it.index < items.length)

/-- A sample document: one page, and an outline whose list of top-level items
is at the address 0. -/
def sample_document : PopplerDocument :=
  ⟨⟨true, 0, 1, ⟨fun _ => 0⟩, some ⟨some 0⟩⟩⟩

/-- A sample heap: the list at the address 0 has two items without children,
the list at the address 1 is empty; one cursor, at the address 0, stands at
index 0 of the first list. -/
def sample_heap : IndexHeap :=
  ⟨[[⟨[65], true, false, none⟩, ⟨[66], true, false, none⟩], []],
   [⟨sample_document, 0, 0⟩]⟩

/-- A heap whose only list, the list of top-level items of `sample_document`,
is empty; no cursor yet. -/
def empty_outline_heap : IndexHeap := ⟨[[]], []⟩

/-- A heap with a list of one item whose children are the empty list at the
address 1, and a cursor on that item. -/
def empty_kids_heap : IndexHeap :=
  ⟨[[⟨[65], true, true, some 1⟩], []], [⟨sample_document, 0, 0⟩]⟩

/-! # Properties -/

/-! ## Helper lemmas: text conversion -/

theorem g_unichar_to_utf8_zero : g_unichar_to_utf8 0 = [0] := by
  simp [g_unichar_to_utf8]

theorem g_unichar_to_utf8_ne_zero {c : Nat} (hc : c ≠ 0) :
    ∀ b ∈ g_unichar_to_utf8 c, b ≠ 0 := by
  intro b hb
  unfold g_unichar_to_utf8 at hb
  split_ifs at hb <;> simp at hb <;> omega

theorem cstr_append_of_ne_zero {u rest : List Nat} (hu : ∀ b ∈ u, b ≠ 0) :
    cstr (u ++ rest) = u ++ cstr rest := by
  induction u with
  | nil => rfl
  | cons a u ih =>
    have ha : a ≠ 0 := hu a (List.mem_cons_self _ _)
    have hu2 : ∀ b ∈ u, b ≠ 0 := fun b hb => hu b (List.mem_cons_of_mem _ hb)
    have := ih hu2
    simp only [cstr] at this ⊢
    simp [List.takeWhile_cons, ha, this]

theorem cstr_utf8_of (cps : List Nat) :
    cstr (utf8_of cps) = utf8_of (cps.takeWhile (fun c => c != 0)) := by
  induction cps with
  | nil => rfl
  | cons c cs ih =>
    by_cases hc : c = 0
    · subst hc
      simp [utf8_of, g_unichar_to_utf8_zero, cstr, List.takeWhile_cons]
    · have h1 : utf8_of (c :: cs) = g_unichar_to_utf8 c ++ utf8_of cs := by
        simp [utf8_of]
      rw [h1, cstr_append_of_ne_zero (g_unichar_to_utf8_ne_zero hc), ih]
      simp [utf8_of, List.takeWhile_cons, hc]

theorem takeWhile_ne_zero_append_zero (l : List Nat) :
    (l ++ [0]).takeWhile (fun c => c != 0) = l.takeWhile (fun c => c != 0) := by
  induction l with
  | nil => simp [List.takeWhile_cons]
  | cons a l ih =>
    by_cases ha : a = 0
    · simp [List.takeWhile_cons, ha]
    · simp [List.takeWhile_cons, ha, ih]

theorem g_ucs4_to_utf8_ucs4_temp (enc : Nat → Nat) (henc : ∀ b, enc b < 0x80000000)
    (s : GooString) :
    g_ucs4_to_utf8 (ucs4_temp enc s) =
      some (utf8_of ((s.map (fun c => enc (c % 256))).takeWhile (fun c => c != 0))) := by
  unfold g_ucs4_to_utf8 ucs4_temp
  rw [takeWhile_ne_zero_append_zero]
  have hany : ((s.map (fun c => enc (c % 256))).takeWhile (fun c => c != 0)).any
      (fun c => decide (0x80000000 ≤ c)) = false := by
    rw [List.any_eq_false]
    intro x hx
    have hx2 := List.takeWhile_subset _ hx
    rw [List.mem_map] at hx2
    obtain ⟨b, _, rfl⟩ := hx2
    have := henc (b % 256)
    simp
    omega
  simp [hany]

theorem has_unicode_marker_iff (s : GooString) (hs : ∀ b ∈ s, b < 256) :
    has_unicode_marker s = true ↔ s.take 2 = [0xFE, 0xFF] := by
  match s, hs with
  | [], _ => simp [has_unicode_marker, GooString.getChar]
  | [a], hs =>
    have ha : a < 256 := hs a (by simp)
    simp [has_unicode_marker, GooString.getChar]
  | a :: b :: rest, hs =>
    have ha : a < 256 := hs a (by simp)
    have hb : b < 256 := hs b (by simp)
    simp [has_unicode_marker, GooString.getChar, Nat.mod_eq_of_lt ha, Nat.mod_eq_of_lt hb]

theorem map_mod_bytes (enc : Nat → Nat) (s : GooString) (hs : ∀ b ∈ s, b < 256) :
    s.map (fun c => enc (c % 256)) = s.map enc := by
  apply List.map_congr_left
  intro b hb
  rw [Nat.mod_eq_of_lt (hs b hb)]

set_option maxRecDepth 100000 in
theorem pdfDocEncoding_lt (b : Nat) : pdfDocEncoding b < 0x80000000 := by
  unfold pdfDocEncoding
  rw [List.getD_eq_getElem?_getD]
  cases hb : pdfDocEncodingTable[b]? with
  | none => simp
  | some x =>
    have hmem : x ∈ pdfDocEncodingTable := List.getElem?_mem hb
    have hall : pdfDocEncodingTable.all (fun y => decide (y < 0x80000000)) = true := by
      decide
    rw [List.all_eq_true] at hall
    simpa using hall x hmem

theorem takeWhile_idem (l : List Nat) (p : Nat → Bool) :
    (l.takeWhile p).takeWhile p = l.takeWhile p := by
  induction l with
  | nil => rfl
  | cons a l ih =>
    by_cases ha : p a = true
    · simp [List.takeWhile_cons, ha, ih]
    · simp [List.takeWhile_cons, ha]

theorem takeWhile_ne_zero_of_not_mem (l : List Nat) (h : 0 ∉ l) :
    l.takeWhile (fun c => c != 0) = l := by
  induction l with
  | nil => rfl
  | cons a l ih =>
    have ha : a ≠ 0 := fun h0 => h (by simp [h0])
    have hl : 0 ∉ l := fun h0 => h (List.mem_cons_of_mem _ h0)
    simp [List.takeWhile_cons, ha, ih hl]

theorem info_dict_get_string_eq (enc : Nat → Nat) (henc : ∀ b, enc b < 0x80000000)
    (info_dict : Dict) (key : String) (value : GValue) (s : GooString)
    (hlookup : info_dict.lookup key = .objString s) (hs : ∀ b ∈ s, b < 256) :
    info_dict_get_string enc info_dict key value =
      .string ((spec_code_points enc s).map
        (fun cps => utf8_of (cps.takeWhile (fun c => c != 0)))) := by
  unfold info_dict_get_string
  rw [hlookup]
  simp only [g_value_set_string, spec_code_points]
  by_cases hm : s.take 2 = [0xFE, 0xFF]
  · have hm2 : has_unicode_marker s = true := (has_unicode_marker_iff s hs).2 hm
    simp only [hm2, hm, if_true, g_convert_utf16be_to_utf8, Option.map_map]
    congr 1
    cases utf16be_decode (s.drop 2) with
    | none => rfl
    | some cps => simp [cstr_utf8_of]
  · have hm2 : has_unicode_marker s = false := by
      cases h : has_unicode_marker s with
      | false => rfl
      | true => exact absurd ((has_unicode_marker_iff s hs).1 h) hm
    simp only [hm2, hm, if_false, g_ucs4_to_utf8_ucs4_temp enc henc, map_mod_bytes enc s hs,
      Option.map_some']
    simp [cstr_utf8_of, takeWhile_idem]

/-! ## C1: the text `info_dict_get_string` produces -/

/-- C1 fails as stated: the value with the bytes 41 00 42 and no marker gives
the one-character text "A": the conversion stops at the first byte whose
PDFDocEncoding entry is 0, so the text does not have one code point for each
of the three bytes. -/
theorem info_dict_get_string_stops_at_zero_entry :
    info_dict_get_string pdfDocEncoding [("Title", .objString [0x41, 0x00, 0x42])] "Title" .unset
        = .string (some [0x41])
    ∧ spec_string_text pdfDocEncoding [0x41, 0x00, 0x42] = some [0x41, 0x00, 0x42]
    ∧ info_dict_get_string pdfDocEncoding [("Title", .objString [0x41, 0x00, 0x42])] "Title"
          .unset
        ≠ .string (spec_string_text pdfDocEncoding [0x41, 0x00, 0x42]) := by
  decide

/-- C1, amended: for a string-typed Info-dictionary value `s` (a byte string)
`info_dict_get_string` stores the UTF-8 text of the code points the
specification assigns to `s` (UTF-16BE after the marker `FE FF`, otherwise the
table entry of each byte, in order) up to, and without, the first code point
0; it stores a NULL string when the bytes after the marker are not well-formed
UTF-16BE. When none of the code points is 0 the text has all of them, one per
byte on the PDFDocEncoding path. With the PDFDocEncoding table, both
`FE FF 00 41 00 42` and `41 42` give "AB". -/
theorem info_dict_get_string_text (enc : Nat → Nat) (henc : ∀ b, enc b < 0x80000000)
    (info_dict : Dict) (key : String) (value : GValue) (s : GooString)
    (hlookup : info_dict.lookup key = .objString s) (hs : ∀ b ∈ s, b < 256) :
    info_dict_get_string enc info_dict key value =
        .string ((spec_code_points enc s).map
          (fun cps => utf8_of (cps.takeWhile (fun c => c != 0))))
    ∧ (∀ cps, spec_code_points enc s = some cps → 0 ∉ cps →
        info_dict_get_string enc info_dict key value = .string (spec_string_text enc s))
    ∧ (s.take 2 ≠ [0xFE, 0xFF] → (∀ b ∈ s, enc b ≠ 0) →
        info_dict_get_string enc info_dict key value = .string (some (utf8_of (s.map enc)))
        ∧ (s.map enc).length = s.length)
    ∧ info_dict_get_string pdfDocEncoding
        [("Title", .objString [0xFE, 0xFF, 0x00, 0x41, 0x00, 0x42])] "Title" .unset
        = .string (some [0x41, 0x42])
    ∧ info_dict_get_string pdfDocEncoding [("Title", .objString [0x41, 0x42])] "Title" .unset
        = .string (some [0x41, 0x42]) := by
  have hmain := info_dict_get_string_eq enc henc info_dict key value s hlookup hs
  refine ⟨hmain, ?_, ?_, by decide, by decide⟩
  · intro cps hcps h0
    rw [hmain, spec_string_text, hcps]
    simp [takeWhile_ne_zero_of_not_mem cps h0]
  · intro hm hnz
    have h0 : 0 ∉ s.map enc := by
      intro h
      rw [List.mem_map] at h
      obtain ⟨b, hb, hb0⟩ := h
      exact hnz b hb hb0
    refine ⟨?_, by simp⟩
    rw [hmain]
    simp [spec_code_points, hm, takeWhile_ne_zero_of_not_mem _ h0]

/-- Witness for `info_dict_get_string_text`: the value `41 42` under the key
`Title`, with the PDFDocEncoding table. -/
theorem info_dict_get_string_text_witness :
    Dict.lookup [("Title", .objString [0x41, 0x42])] "Title" = .objString [0x41, 0x42]
    ∧ info_dict_get_string pdfDocEncoding [("Title", .objString [0x41, 0x42])] "Title" .unset
      = .string (some (utf8_of [0x41, 0x42])) :=
  ⟨by decide,
   (info_dict_get_string_text pdfDocEncoding pdfDocEncoding_lt
      [("Title", .objString [0x41, 0x42])] "Title" .unset [0x41, 0x42] (by decide)
      (by decide)).1⟩

/-! ## Helper lemmas: scanning -/

theorem isdigit_bounds {c : Nat} (h : isdigit c = true) : 48 ≤ c ∧ c ≤ 57 := by
  simpa [isdigit] using h

theorem isspace_of_isdigit {c : Nat} (h : isdigit c = true) : isspace c = false := by
  have := isdigit_bounds h
  simp only [isspace, Bool.or_eq_false_iff, Bool.and_eq_false_iff, beq_eq_false_iff_ne,
    decide_eq_false_iff_not]
  omega

theorem takeWhile_eq_self_of_all {p : Nat → Bool} (l : List Nat) (h : ∀ c ∈ l, p c = true) :
    l.takeWhile p = l := by
  induction l with
  | nil => rfl
  | cons a l ih =>
    have ha := h a (List.mem_cons_self _ _)
    simp [List.takeWhile_cons, ha, ih (fun c hc => h c (List.mem_cons_of_mem _ hc))]

/-- A `%Nd` directive in front of exactly `N` digit chars reads them all. -/
theorem scan_d_digits (w : Nat) (ds rest : List Nat) (hlen : ds.length = w) (hw : 0 < w)
    (hds : ∀ c ∈ ds, isdigit c = true) :
    scan_d w (ds ++ rest) = .assigned (decimal ds) rest := by
  match ds, hlen, hds with
  | [], hlen, _ => simp at hlen; omega
  | c :: cs, hlen, hds =>
    have hc : isdigit c = true := hds c (List.mem_cons_self _ _)
    have hb := isdigit_bounds hc
    have hsp := isspace_of_isdigit hc
    have h45 : (c == 45) = false := by simp; omega
    have h43 : (c == 43) = false := by simp; omega
    have htake : ((c :: cs) ++ rest).take w = c :: cs := by
      rw [← hlen]; exact List.take_left' rfl
    have hdrop : ((c :: cs) ++ rest).drop (c :: cs).length = rest := List.drop_left' rfl
    unfold scan_d
    simp only [List.cons_append, List.dropWhile_cons, hsp, Bool.false_eq_true, if_false]
    simp only [h45, h43, Bool.or_self, Bool.false_eq_true, if_false]
    rw [← List.cons_append, htake, takeWhile_eq_self_of_all _ hds, hdrop]
    simp

theorem skip_prefix_D_digit (c : Nat) (l : List Nat) (hc : isdigit c = true) :
    skip_prefix_D (c :: l) = c :: l := by
  have hb := isdigit_bounds hc
  have : (c == 68) = false := by simp; omega
  simp [skip_prefix_D, this]

theorem skip_prefix_D_cons (l : List Nat) : skip_prefix_D (prefix_D ++ l) = l := by
  simp [skip_prefix_D, prefix_D]

/-- The six-field scan of fourteen digit chars, given as its six fields. -/
theorem sscanf_d_six_fields (y mo d h mi s : List Nat)
    (hy : y.length = 4) (hmo : mo.length = 2) (hd : d.length = 2) (hh : h.length = 2)
    (hmi : mi.length = 2) (hs : s.length = 2)
    (dy : ∀ c ∈ y, isdigit c = true) (dmo : ∀ c ∈ mo, isdigit c = true)
    (dd : ∀ c ∈ d, isdigit c = true) (dh : ∀ c ∈ h, isdigit c = true)
    (dmi : ∀ c ∈ mi, isdigit c = true) (ds : ∀ c ∈ s, isdigit c = true) :
    sscanf_d [4, 2, 2, 2, 2, 2] (y ++ (mo ++ (d ++ (h ++ (mi ++ s))))) [] =
      ⟨6, [decimal y, decimal mo, decimal d, decimal h, decimal mi, decimal s]⟩ := by
  have e6 : scan_d 2 s = .assigned (decimal s) [] := by
    have := scan_d_digits 2 s [] hs (by decide) ds
    simpa using this
  simp only [sscanf_d, scan_d_digits 4 y _ hy (by decide) dy,
    scan_d_digits 2 mo _ hmo (by decide) dmo, scan_d_digits 2 d _ hd (by decide) dd,
    scan_d_digits 2 h _ hh (by decide) dh, scan_d_digits 2 mi _ hmi (by decide) dmi, e6]
  simp

theorem date_to_tm_six_fields (y mo d h mi s : List Nat)
    (hy : is_digits 4 y) (hmo : is_digits 2 mo) (hd : is_digits 2 d) (hh : is_digits 2 h)
    (hmi : is_digits 2 mi) (hs : is_digits 2 s) (hyear : 1930 ≤ decimal y)
    (pre : List Nat) (hpre : pre = [] ∨ pre = prefix_D) :
    date_to_tm (pre ++ (y ++ (mo ++ (d ++ (h ++ (mi ++ s)))))) =
      some (fill_tm (decimal y) (decimal mo) (decimal d) (decimal h) (decimal mi)
        (decimal s)) := by
  have hscan := sscanf_d_six_fields y mo d h mi s hy.1 hmo.1 hd.1 hh.1 hmi.1 hs.1
    hy.2 hmo.2 hd.2 hh.2 hmi.2 hs.2
  have hskip : skip_prefix_D (pre ++ (y ++ (mo ++ (d ++ (h ++ (mi ++ s))))))
      = y ++ (mo ++ (d ++ (h ++ (mi ++ s)))) := by
    rcases hpre with rfl | rfl
    · match y, hy with
      | [], hy => exact absurd hy.1 (by simp)
      | c :: cs, hy =>
        exact skip_prefix_D_digit c _ (hy.2 c (List.mem_cons_self _ _))
    · exact skip_prefix_D_cons _
  unfold date_to_tm
  simp only [hskip, hscan]
  have hny : ¬ decimal y < 1930 := not_lt.mpr hyear
  simp [hny]

theorem cstr_eq_self_of_ne_zero (l : List Nat) (h : ∀ c ∈ l, c ≠ 0) : cstr l = l := by
  unfold cstr
  apply takeWhile_eq_self_of_all
  intro c hc
  simpa using h c hc

theorem info_dict_get_date_eq (mktime : Tm → Int × Tm) (info_dict : Dict) (key : String)
    (value : GValue) (goo_value : GooString) (buf : List Nat)
    (hlookup : info_dict.lookup key = .objString goo_value)
    (hbuf : date_string_of goo_value = some buf) :
    info_dict_get_date mktime info_dict key value =
      match date_to_tm (cstr buf) with
      | none => some value
      | some time =>
        if (mktime time).1 = -1 then some value
        else some (g_value_set_int value (mktime (mktime time).2).1) := by
  unfold info_dict_get_date
  rw [hlookup]
  simp only [hbuf]

theorem date_string_of_plain (goo_value : GooString) (h0 : ∀ c ∈ goo_value, c ≠ 0)
    (hm : has_unicode_marker goo_value = false) :
    date_string_of goo_value = some goo_value := by
  unfold date_string_of
  simp only [hm, Bool.false_eq_true, if_false, g_strndup, GooString.getLength, List.take_length]
  rw [cstr_eq_self_of_ne_zero _ h0]

theorem is_digits_ne_zero {n : Nat} {l : List Nat} (h : is_digits n l) : ∀ c ∈ l, c ≠ 0 := by
  intro c hc
  have := isdigit_bounds (h.2 c hc)
  omega

theorem has_unicode_marker_cons_lt (c : Nat) (l : List Nat) (hc : c < 0xfe) :
    has_unicode_marker (c :: l) = false := by
  have : c % 256 = c := Nat.mod_eq_of_lt (by omega)
  simp [has_unicode_marker, GooString.getChar, this]
  omega

/-! ## C2: the six fields of a date -/

theorem cstr_cstr (buf : List Nat) : cstr (cstr buf) = cstr buf := by
  unfold cstr
  exact takeWhile_idem buf _

theorem date_string_of_unmarked (goo_value : GooString)
    (hm : has_unicode_marker goo_value = false) :
    date_string_of goo_value = some (cstr goo_value) := by
  unfold date_string_of
  simp only [hm, Bool.false_eq_true, if_false, g_strndup, GooString.getLength, List.take_length]

/-- C2: for a date made of an optional `D:` and the fourteen digits
YYYYMMDDHHmmSS with YYYY at least 1930, `info_dict_get_date` hands `mktime`
exactly the year YYYY, month MM, day DD, hour HH, minute mm and second SS:
the `struct tm` with `tm_year = YYYY - 1900`, `tm_mon = MM - 1`,
`tm_mday = DD`, `tm_hour = HH`, `tm_min = mm`, `tm_sec = SS` (and -1 in
`tm_wday`, `tm_yday`, `tm_isdst`); the value it sets is the same with and
without the prefix. `D:19990101120000` gives 1999-01-01 12:00:00 and
`D:20050723184559` gives 2005-07-23 18:45:59. When fewer than six fields
scan, as for `D:9901011200`, the function returns early and the value is left
as it was. -/
theorem info_dict_get_date_six_fields (mktime : Tm → Int × Tm)
    (y mo d h mi s : List Nat)
    (hy : is_digits 4 y) (hmo : is_digits 2 mo) (hd : is_digits 2 d) (hh : is_digits 2 h)
    (hmi : is_digits 2 mi) (hs : is_digits 2 s) (hyear : 1930 ≤ decimal y)
    (prefixed unprefixed : Dict) (key : String) (value : GValue)
    (hwith : prefixed.lookup key =
      .objString (prefix_D ++ (y ++ (mo ++ (d ++ (h ++ (mi ++ s)))))))
    (hwithout : unprefixed.lookup key =
      .objString (y ++ (mo ++ (d ++ (h ++ (mi ++ s)))))) :
    date_to_tm (prefix_D ++ (y ++ (mo ++ (d ++ (h ++ (mi ++ s)))))) =
        some (
            { tm_sec := decimal s, tm_min := decimal mi, tm_hour := decimal h, tm_mday := decimal d,
              tm_mon := decimal mo - 1, tm_year := decimal y - 1900, tm_wday := -1, tm_yday := -1,
              tm_isdst := -1 } : Tm)
    ∧ date_to_tm (y ++ (mo ++ (d ++ (h ++ (mi ++ s))))) =
        some (
            { tm_sec := decimal s, tm_min := decimal mi, tm_hour := decimal h, tm_mday := decimal d,
              tm_mon := decimal mo - 1, tm_year := decimal y - 1900, tm_wday := -1, tm_yday := -1,
              tm_isdst := -1 } : Tm)
    ∧ info_dict_get_date mktime prefixed key value =
        (if (mktime (
            { tm_sec := decimal s, tm_min := decimal mi, tm_hour := decimal h, tm_mday := decimal d,
              tm_mon := decimal mo - 1, tm_year := decimal y - 1900, tm_wday := -1, tm_yday := -1,
              tm_isdst := -1 } : Tm)).1 = -1 then some value
         else some (g_value_set_int value (mktime (mktime (
            { tm_sec := decimal s, tm_min := decimal mi, tm_hour := decimal h, tm_mday := decimal d,
              tm_mon := decimal mo - 1, tm_year := decimal y - 1900, tm_wday := -1, tm_yday := -1,
              tm_isdst := -1 } : Tm)).2).1))
    ∧ info_dict_get_date mktime unprefixed key value =
        info_dict_get_date mktime prefixed key value
    ∧ date_to_tm (chars "D:19990101120000") = some (
            { tm_sec := 0, tm_min := 0, tm_hour := 12, tm_mday := 1, tm_mon := 0, tm_year := 99,
              tm_wday := -1, tm_yday := -1, tm_isdst := -1 } : Tm)
    ∧ date_to_tm (chars "D:20050723184559") = some (
            { tm_sec := 59, tm_min := 45, tm_hour := 18, tm_mday := 23, tm_mon := 6, tm_year := 105,
              tm_wday := -1, tm_yday := -1, tm_isdst := -1 } : Tm)
    ∧ date_to_tm (chars "20050723184559") = some (
            { tm_sec := 59, tm_min := 45, tm_hour := 18, tm_mday := 23, tm_mon := 6, tm_year := 105,
              tm_wday := -1, tm_yday := -1, tm_isdst := -1 } : Tm)
    ∧ info_dict_get_date mktime
        [("CreationDate", .objString (chars "D:20050723184559"))] "CreationDate" value =
        (if (mktime (
            { tm_sec := 59, tm_min := 45, tm_hour := 18, tm_mday := 23, tm_mon := 6, tm_year := 105,
              tm_wday := -1, tm_yday := -1, tm_isdst := -1 } : Tm)).1 = -1 then some value
         else some (g_value_set_int value (mktime (mktime (
            { tm_sec := 59, tm_min := 45, tm_hour := 18, tm_mday := 23, tm_mon := 6, tm_year := 105,
              tm_wday := -1, tm_yday := -1, tm_isdst := -1 } : Tm)).2).1))
    ∧ (∀ date_string : List Nat,
        (sscanf_d [4, 2, 2, 2, 2, 2] (skip_prefix_D date_string) []).items < 6 →
        date_to_tm date_string = none)
    ∧ (∀ (info_dict : Dict) (goo_value : GooString) (buf : List Nat),
        info_dict.lookup key = .objString goo_value →
        date_string_of goo_value = some buf →
        (sscanf_d [4, 2, 2, 2, 2, 2] (skip_prefix_D (cstr buf)) []).items < 6 →
        info_dict_get_date mktime info_dict key value = some value)
    ∧ (∀ (info_dict : Dict) (goo_value : GooString),
        info_dict.lookup key = .objString goo_value →
        has_unicode_marker goo_value = false →
        (sscanf_d [4, 2, 2, 2, 2, 2] (skip_prefix_D (cstr goo_value)) []).items < 6 →
        info_dict_get_date mktime info_dict key value = some value)
    ∧ (sscanf_d [4, 2, 2, 2, 2, 2] (skip_prefix_D (chars "D:9901011200")) []).items = 4
    ∧ date_to_tm (chars "D:9901011200") = none
    ∧ info_dict_get_date mktime
        [("CreationDate", .objString (chars "D:9901011200"))] "CreationDate" value
        = some value := by
  have h1 := date_to_tm_six_fields y mo d h mi s hy hmo hd hh hmi hs hyear prefix_D
    (Or.inr rfl)
  have h2 := date_to_tm_six_fields y mo d h mi s hy hmo hd hh hmi hs hyear [] (Or.inl rfl)
  rw [List.nil_append] at h2
  simp only [fill_tm] at h1 h2
  have hz : ∀ c ∈ y ++ (mo ++ (d ++ (h ++ (mi ++ s)))), c ≠ 0 := by
    intro c hc
    simp only [List.mem_append] at hc
    rcases hc with hc | hc | hc | hc | hc | hc
    · exact is_digits_ne_zero hy c hc
    · exact is_digits_ne_zero hmo c hc
    · exact is_digits_ne_zero hd c hc
    · exact is_digits_ne_zero hh c hc
    · exact is_digits_ne_zero hmi c hc
    · exact is_digits_ne_zero hs c hc
  have hzp : ∀ c ∈ prefix_D ++ (y ++ (mo ++ (d ++ (h ++ (mi ++ s))))), c ≠ 0 := by
    intro c hc
    rw [List.mem_append] at hc
    rcases hc with hc | hc
    · simp [prefix_D] at hc; omega
    · exact hz c hc
  have hmp : has_unicode_marker (prefix_D ++ (y ++ (mo ++ (d ++ (h ++ (mi ++ s))))))
      = false := has_unicode_marker_cons_lt 68 _ (by decide)
  have hm : has_unicode_marker (y ++ (mo ++ (d ++ (h ++ (mi ++ s))))) = false := by
    match y, hy with
    | [], hy => exact absurd hy.1 (by simp)
    | c :: cs, hy =>
      have := isdigit_bounds (hy.2 c (List.mem_cons_self _ _))
      exact has_unicode_marker_cons_lt c _ (by omega)
  have e1 := info_dict_get_date_eq mktime prefixed key value _ _ hwith
    (date_string_of_plain _ hzp hmp)
  have e2 := info_dict_get_date_eq mktime unprefixed key value _ _ hwithout
    (date_string_of_plain _ hz hm)
  rw [cstr_eq_self_of_ne_zero _ hzp, h1] at e1
  rw [cstr_eq_self_of_ne_zero _ hz, h2] at e2
  have hfew : ∀ (info_dict : Dict) (goo_value : GooString) (buf : List Nat),
      info_dict.lookup key = .objString goo_value →
      date_string_of goo_value = some buf →
      (sscanf_d [4, 2, 2, 2, 2, 2] (skip_prefix_D (cstr buf)) []).items < 6 →
      info_dict_get_date mktime info_dict key value = some value := by
    intro info_dict goo_value buf hl hb hlt
    rw [info_dict_get_date_eq mktime info_dict key value goo_value buf hl hb]
    have : (sscanf_d [4, 2, 2, 2, 2, 2] (skip_prefix_D (cstr buf)) []).items ≠ 6 := by
      omega
    have hnone : date_to_tm (cstr buf) = none := by
      unfold date_to_tm
      simp [this]
    rw [hnone]
  have hsample : info_dict_get_date mktime
      [("CreationDate", .objString (chars "D:20050723184559"))] "CreationDate" value =
      (if (mktime (
            { tm_sec := 59, tm_min := 45, tm_hour := 18, tm_mday := 23, tm_mon := 6, tm_year := 105,
              tm_wday := -1, tm_yday := -1, tm_isdst := -1 } : Tm)).1 = -1 then some value
       else some (g_value_set_int value (mktime (mktime (
            { tm_sec := 59, tm_min := 45, tm_hour := 18, tm_mday := 23, tm_mon := 6, tm_year := 105,
              tm_wday := -1, tm_yday := -1, tm_isdst := -1 } : Tm)).2).1)) := by
    rw [info_dict_get_date_eq mktime _ "CreationDate" value (chars "D:20050723184559")
      (chars "D:20050723184559") (by decide) (by decide)]
    have ht : date_to_tm (cstr (chars "D:20050723184559")) = some (
            { tm_sec := 59, tm_min := 45, tm_hour := 18, tm_mday := 23, tm_mon := 6, tm_year := 105,
              tm_wday := -1, tm_yday := -1, tm_isdst := -1 } : Tm) := by decide
    rw [ht]
  have hshort : info_dict_get_date mktime
      [("CreationDate", .objString (chars "D:9901011200"))] "CreationDate" value
      = some value := by
    rw [info_dict_get_date_eq mktime _ "CreationDate" value (chars "D:9901011200")
      (chars "D:9901011200") (by decide) (by decide)]
    have ht : date_to_tm (cstr (chars "D:9901011200")) = none := by decide
    rw [ht]
  refine ⟨h1, h2, e1, e2.trans e1.symm, by decide, by decide, by decide, hsample, ?_, hfew, ?_,
    by decide, by decide, hshort⟩
  · intro date_string hlt
    unfold date_to_tm
    have : (sscanf_d [4, 2, 2, 2, 2, 2] (skip_prefix_D date_string) []).items ≠ 6 := by
      omega
    simp [this]
  · intro info_dict goo_value hl hm2 hlt
    refine hfew info_dict goo_value (cstr goo_value) hl (date_string_of_unmarked _ hm2) ?_
    rw [cstr_cstr]
    exact hlt

/-- Witness for `info_dict_get_date_six_fields`: the date 2005-07-23 18:45:59
under the key `CreationDate`, written with and without `D:`, in the UTC time
zone. -/
theorem info_dict_get_date_six_fields_witness :
    date_to_tm (prefix_D ++ (chars "2005" ++ (chars "07" ++ (chars "23" ++ (chars "18" ++
        (chars "45" ++ chars "59")))))) = some (
            { tm_sec := 59, tm_min := 45, tm_hour := 18, tm_mday := 23, tm_mon := 6, tm_year := 105,
              tm_wday := -1, tm_yday := -1, tm_isdst := -1 } : Tm)
    ∧ date_to_tm (chars "2005" ++ (chars "07" ++ (chars "23" ++ (chars "18" ++
        (chars "45" ++ chars "59"))))) = some (
            { tm_sec := 59, tm_min := 45, tm_hour := 18, tm_mday := 23, tm_mon := 6, tm_year := 105,
              tm_wday := -1, tm_yday := -1, tm_isdst := -1 } : Tm)
    ∧ info_dict_get_date mktime_utc
        [("CreationDate", .objString (chars "D:20050723184559"))] "CreationDate" .unset
        = some (.int 1122144359)
    ∧ info_dict_get_date mktime_utc
        [("CreationDate", .objString (chars "20050723184559"))] "CreationDate" .unset
        = some (.int 1122144359) :=
  have h := info_dict_get_date_six_fields mktime_utc (chars "2005") (chars "07") (chars "23")
    (chars "18") (chars "45") (chars "59") (by decide) (by decide) (by decide) (by decide)
    (by decide) (by decide) (by decide)
    [("CreationDate", .objString (chars "D:20050723184559"))]
    [("CreationDate", .objString (chars "20050723184559"))] "CreationDate" .unset
    (by decide) (by decide)
  ⟨h.1, h.2.1, h.2.2.1, h.2.2.2.1.trans h.2.2.1⟩

/-! ## C3: the century / years-since-1900 re-scan -/

theorem sscanf_d_items (ws : List Nat) (str : List Nat) (done : List Int) :
    (sscanf_d ws str done).items = ((sscanf_d ws str done).vals.length : Int)
    ∨ ((sscanf_d ws str done).items = -1 ∧ (sscanf_d ws str done).vals = []) := by
  induction ws generalizing str done with
  | nil => left; simp [sscanf_d]
  | cons w ws ih =>
    unfold sscanf_d
    cases hsc : scan_d w str with
    | assigned v rest => simpa using ih rest (done ++ [v])
    | matching_failure => left; simp
    | input_failure =>
      cases done with
      | nil => right; simp
      | cons a l => left; simp

theorem sscanf_d_vals_length (ws : List Nat) (str : List Nat) (n : Nat)
    (h : (sscanf_d ws str []).items = (n : Int)) : (sscanf_d ws str []).vals.length = n := by
  rcases sscanf_d_items ws str [] with h1 | ⟨h1, _⟩
  · rw [h1] at h; exact_mod_cast h
  · rw [h1] at h; omega

/-- C3 fails as stated: after the prefix `D:19250101120000Z` has 15 chars and
its first scan gives the year 1925, below 1930; the re-scan reads century 19
and years-since-1900 250, so the year used is 2150, outside [1900,2099].
And for `D:190000101120000` the year of the split, 1900, is the literal
4-digit year of the first scan. -/
theorem date_to_tm_century_split_out_of_range :
    (sscanf_d [4, 2, 2, 2, 2, 2] (skip_prefix_D (chars "D:19250101120000Z")) []).items = 6
    ∧ (sscanf_d [4, 2, 2, 2, 2, 2] (skip_prefix_D (chars "D:19250101120000Z")) []).vals.getD
        0 0 = 1925
    ∧ 14 < (skip_prefix_D (chars "D:19250101120000Z")).length
    ∧ date_to_tm (chars "D:19250101120000Z") = some (fill_tm 2150 10 11 20 0 0)
    ∧ ¬ ((1900 : Int) ≤ 2150 ∧ (2150 : Int) ≤ 2099)
    ∧ (sscanf_d [4, 2, 2, 2, 2, 2] (skip_prefix_D (chars "D:190000101120000")) []).vals.getD
        0 0 = 1900
    ∧ date_to_tm (chars "D:190000101120000") = some (fill_tm 1900 1 1 12 0 0) := by
  decide

/-- C3, amended: when the text after the optional `D:` is longer than 14
chars and the first six-field scan gives a year below 1930,
`info_dict_get_date` scans the text again as a 2-digit century, a 3-digit
years-since-1900 and five 2-digit fields. If that assigns fewer than seven
fields the result is absent (the value is left as it was); otherwise the
fields handed to `mktime` are those of the second scan, with the year
`century * 100 + years_since_1900`. That year lies in [1900,2099] when the
century is 19 and the years-since-1900 are in [0,199], as in
`D:191000101120000`, which gives the year 2000; no range is imposed
otherwise. -/
theorem date_to_tm_century_split (date_string : List Nat)
    (hfirst : (sscanf_d [4, 2, 2, 2, 2, 2] (skip_prefix_D date_string) []).items = 6)
    (hyear : (sscanf_d [4, 2, 2, 2, 2, 2] (skip_prefix_D date_string) []).vals.getD 0 0
      < 1930)
    (hlen : 14 < (skip_prefix_D date_string).length) :
    ((sscanf_d [2, 3, 2, 2, 2, 2, 2] (skip_prefix_D date_string) []).items ≠ 7 →
        date_to_tm date_string = none)
    ∧ ((sscanf_d [2, 3, 2, 2, 2, 2, 2] (skip_prefix_D date_string) []).items = 7 →
        ∃ century years_since_1900 mon day hour min sec : Int,
          (sscanf_d [2, 3, 2, 2, 2, 2, 2] (skip_prefix_D date_string) []).vals =
            [century, years_since_1900, mon, day, hour, min, sec]
          ∧ date_to_tm date_string =
            some (fill_tm (century * 100 + years_since_1900) mon day hour min sec)
          ∧ (century = 19 → 0 ≤ years_since_1900 → years_since_1900 ≤ 199 →
              1900 ≤ century * 100 + years_since_1900
              ∧ century * 100 + years_since_1900 ≤ 2099))
    ∧ (∀ (mktime : Tm → Int × Tm) (info_dict : Dict) (key : String) (value : GValue)
        (goo_value : GooString) (buf : List Nat),
        info_dict.lookup key = .objString goo_value →
        date_string_of goo_value = some buf → cstr buf = date_string →
        (sscanf_d [2, 3, 2, 2, 2, 2, 2] (skip_prefix_D date_string) []).items ≠ 7 →
        info_dict_get_date mktime info_dict key value = some value)
    ∧ date_to_tm (chars "D:191000101120000") = some (fill_tm 2000 1 1 12 0 0) := by
  have hlen6 := sscanf_d_vals_length _ _ 6 hfirst
  have hnone : (sscanf_d [2, 3, 2, 2, 2, 2, 2] (skip_prefix_D date_string) []).items ≠ 7 →
      date_to_tm date_string = none := by
    intro h7
    unfold date_to_tm
    simp only [hfirst, ne_eq, not_true_eq_false, if_false]
    match hv : (sscanf_d [4, 2, 2, 2, 2, 2] (skip_prefix_D date_string) []).vals, hlen6 with
    | [year, mon, day, hour, min, sec], _ =>
      rw [hv] at hyear
      have hy : year < 1930 := by simpa using hyear
      simp [hy, hlen, h7]
  refine ⟨hnone, ?_, ?_, by decide⟩
  · intro h7
    have hlen7 := sscanf_d_vals_length _ _ 7 h7
    match hv2 : (sscanf_d [2, 3, 2, 2, 2, 2, 2] (skip_prefix_D date_string) []).vals,
      hlen7 with
    | [century, years_since_1900, mon2, day2, hour2, min2, sec2], _ =>
      refine ⟨century, years_since_1900, mon2, day2, hour2, min2, sec2, rfl, ?_, ?_⟩
      · unfold date_to_tm
        simp only [hfirst, ne_eq, not_true_eq_false, if_false]
        match hv : (sscanf_d [4, 2, 2, 2, 2, 2] (skip_prefix_D date_string) []).vals,
          hlen6 with
        | [year, mon, day, hour, min, sec], _ =>
          rw [hv] at hyear
          have hy : year < 1930 := by simpa using hyear
          simp [hy, hlen, h7, hv2]
      · intro hc h0 h199
        omega
  · intro mktime info_dict key value goo_value buf hl hb hc h7
    rw [info_dict_get_date_eq mktime info_dict key value goo_value buf hl hb, hc, hnone h7]

/-- Witness for `date_to_tm_century_split`: the date `D:191000101120000`. -/
theorem date_to_tm_century_split_witness :
    (sscanf_d [2, 3, 2, 2, 2, 2, 2] (skip_prefix_D (chars "D:191000101120000")) []).items = 7
    ∧ ∃ century years_since_1900 mon day hour min sec : Int,
        (sscanf_d [2, 3, 2, 2, 2, 2, 2] (skip_prefix_D (chars "D:191000101120000")) []).vals
          = [century, years_since_1900, mon, day, hour, min, sec]
        ∧ date_to_tm (chars "D:191000101120000") =
          some (fill_tm (century * 100 + years_since_1900) mon day hour min sec)
        ∧ (century = 19 → 0 ≤ years_since_1900 → years_since_1900 ≤ 199 →
            1900 ≤ century * 100 + years_since_1900
            ∧ century * 100 + years_since_1900 ≤ 2099) :=
  ⟨by decide,
   (date_to_tm_century_split (chars "D:191000101120000") (by decide) (by decide)
      (by decide)).2.1 (by decide)⟩

/-! ## C4: dates that are not calendar dates -/

/-- C4, the code at month 13: the six fields of `D:19991301120000` scan, the
month 13 is handed to `mktime` as `tm_mon = 12`, and `mktime` (here in the UTC
time zone) carries it over into January 2000 instead of failing: the value is
set to 946728000, the time stamp of 2000-01-01 12:00:00, the same as for
`D:20000101120000`. For any `mktime`, the value is set whenever `mktime` does
not return -1: no other check of the fields is made. -/
theorem info_dict_get_date_month_13_wraps :
    date_to_tm (chars "D:19991301120000") = some (fill_tm 1999 13 1 12 0 0)
    ∧ (mktime_utc (fill_tm 1999 13 1 12 0 0)).1 = 946728000
    ∧ info_dict_get_date mktime_utc
        [("CreationDate", .objString (chars "D:19991301120000"))] "CreationDate" .unset
        = some (.int 946728000)
    ∧ info_dict_get_date mktime_utc
        [("CreationDate", .objString (chars "D:20000101120000"))] "CreationDate" .unset
        = some (.int 946728000)
    ∧ (∀ mktime : Tm → Int × Tm, (mktime (fill_tm 1999 13 1 12 0 0)).1 ≠ -1 →
        info_dict_get_date mktime
          [("CreationDate", .objString (chars "D:19991301120000"))] "CreationDate" .unset
          = some (g_value_set_int .unset
              (mktime (mktime (fill_tm 1999 13 1 12 0 0)).2).1)) := by
  refine ⟨by decide, by decide, by decide, by decide, ?_⟩
  intro mktime hne
  have hl : Dict.lookup [("CreationDate", Object.objString (chars "D:19991301120000"))]
      "CreationDate" = .objString (chars "D:19991301120000") := by decide
  have hb : date_string_of (chars "D:19991301120000") = some (chars "D:19991301120000") := by
    decide
  have hc : cstr (chars "D:19991301120000") = chars "D:19991301120000" := by decide
  have ht : date_to_tm (chars "D:19991301120000") = some (fill_tm 1999 13 1 12 0 0) := by
    decide
  rw [info_dict_get_date_eq mktime _ _ _ _ _ hl hb, hc, ht]
  simp [hne]

/-! ## C5: errors of `poppler_document_new_from_file` -/

/-- C5: when the parse attempt of `poppler_document_new_from_file` fails with
the parser's error code `e`, no document is returned and an error is set: it
is `POPPLER_ERROR_ENCRYPTED` exactly when `e` is `errEncrypted`, and otherwise
it is `G_FILE_ERROR_FAILED` with the message that carries `e` and the uri. A
wrong password, which the parser reports as `errEncrypted`, is therefore
reported as the encrypted error and never as the load error. -/
theorem poppler_document_new_from_file_parse_failure
    (g_filename_from_uri : String → Except GError String)
    (new_PDFDoc : String → Option String → Option String → PDFDoc) (errEncrypted : Int)
    (uri filename : String) (password : Option String) (e : Int)
    (hfile : g_filename_from_uri uri = .ok filename)
    (hfail : (new_PDFDoc filename password password).ok = false)
    (herr : (new_PDFDoc filename password password).errCode = e) :
    (poppler_document_new_from_file g_filename_from_uri new_PDFDoc errEncrypted uri
        password).1 = none
    ∧ ∃ err : GError,
        (poppler_document_new_from_file g_filename_from_uri new_PDFDoc errEncrypted uri
          password).2 = some err
        ∧ (err.code = .POPPLER_ERROR_ENCRYPTED ↔ e = errEncrypted)
        ∧ (err.code = .G_FILE_ERROR_FAILED ↔ e ≠ errEncrypted)
        ∧ (e = errEncrypted →
            err = ⟨.POPPLER_ERROR, .POPPLER_ERROR_ENCRYPTED, "Document is encrypted."⟩)
        ∧ (e ≠ errEncrypted →
            err = ⟨.G_FILE_ERROR, .G_FILE_ERROR_FAILED,
              "Failed to load document (error " ++ toString e ++ ") "
                ++ String.singleton (Char.ofNat 39) ++ uri
                ++ String.singleton (Char.ofNat 39) ++ "\n"⟩) := by
  unfold poppler_document_new_from_file
  simp only [hfile, hfail, herr, Bool.not_false, if_true]
  by_cases he : e = errEncrypted
  · simp [he]
  · simp [he, load_error_message]

/-- Witness for `poppler_document_new_from_file_parse_failure`: a parser that
rejects the password `wrong` with the code `errEncrypted` = 4. -/
theorem poppler_document_new_from_file_parse_failure_witness :
    (poppler_document_new_from_file (fun uri => .ok uri)
        (fun _ _ _ => ⟨false, 4, 0, ⟨fun _ => 0⟩, none⟩) 4 "file:///a.pdf" (some "wrong")).1
      = none
    ∧ ∃ err : GError,
        (poppler_document_new_from_file (fun uri => .ok uri)
          (fun _ _ _ => ⟨false, 4, 0, ⟨fun _ => 0⟩, none⟩) 4 "file:///a.pdf"
          (some "wrong")).2 = some err
        ∧ (err.code = .POPPLER_ERROR_ENCRYPTED ↔ (4 : Int) = 4)
        ∧ (err.code = .G_FILE_ERROR_FAILED ↔ (4 : Int) ≠ 4)
        ∧ ((4 : Int) = 4 →
            err = ⟨.POPPLER_ERROR, .POPPLER_ERROR_ENCRYPTED, "Document is encrypted."⟩)
        ∧ ((4 : Int) ≠ 4 →
            err = ⟨.G_FILE_ERROR, .G_FILE_ERROR_FAILED,
              "Failed to load document (error " ++ toString (4 : Int) ++ ") "
                ++ String.singleton (Char.ofNat 39) ++ "file:///a.pdf"
                ++ String.singleton (Char.ofNat 39) ++ "\n"⟩) :=
  poppler_document_new_from_file_parse_failure (fun uri => .ok uri)
    (fun _ _ _ => ⟨false, 4, 0, ⟨fun _ => 0⟩, none⟩) 4 "file:///a.pdf" "file:///a.pdf"
    (some "wrong") 4 rfl rfl rfl

/-! ## C6: page lookup -/

/-- C6: `poppler_document_get_page (document, index)` returns a page exactly
when `0 <= index < n` for `n` the page count; it then asks the catalog for the
page number `index + 1`, once, and returns the page object made from that
catalog page with the external index `index`; outside the range it returns
NULL and asks the catalog nothing. -/
theorem poppler_document_get_page_in_range (document : PopplerDocument) (index : Int) :
    ((poppler_document_get_page document index).1.isSome = true ↔
        (0 ≤ index ∧ index < poppler_document_get_n_pages document))
    ∧ ((0 ≤ index ∧ index < poppler_document_get_n_pages document) →
        poppler_document_get_page document index =
          (some ⟨document, document.doc.catalog.getPage (index + 1), index⟩, [index + 1]))
    ∧ (¬ (0 ≤ index ∧ index < poppler_document_get_n_pages document) →
        poppler_document_get_page document index = (none, [])) := by
  unfold poppler_document_get_page
  by_cases h : 0 ≤ index ∧ index < poppler_document_get_n_pages document
  · simp [h, _poppler_page_new]
  · simp [h]

/-- Witness for `poppler_document_get_page_in_range`: index 2 of a document
of three pages is the catalog page number 3. -/
theorem poppler_document_get_page_in_range_witness :
    (poppler_document_get_page ⟨⟨true, 0, 3, ⟨fun i => i.toNat + 100⟩, none⟩⟩ 2).2 = [3]
    ∧ ((poppler_document_get_page ⟨⟨true, 0, 3, ⟨fun i => i.toNat + 100⟩, none⟩⟩ 2).1.map
        (fun page => (page.page, page.index))) = some (103, 2) :=
  have h := (poppler_document_get_page_in_range
    ⟨⟨true, 0, 3, ⟨fun i => i.toNat + 100⟩, none⟩⟩ 2).2.1 (by decide)
  ⟨by rw [h]; rfl, by rw [h]; rfl⟩

/-! ## C7: opening the outline cursor -/

/-- C7, the code at an empty list of top-level items: for a document whose
outline has an item list of length 0 (at address 0 of the heap)
`poppler_index_iter_new` returns a cursor, positioned at index 0 of that empty
list, not NULL; reading the current item through it, as
`poppler_index_iter_get_child` does, falls outside the list. In general the
result is NULL exactly when the outline or its item list is NULL, whatever the
length of the list. -/
theorem poppler_index_iter_new_empty_list :
    (poppler_index_iter_new ⟨[[]], []⟩ ⟨⟨true, 0, 1, ⟨fun _ => 0⟩, some ⟨some 0⟩⟩⟩).1 = some 0
    ∧ ((poppler_index_iter_new ⟨[[]], []⟩
          ⟨⟨true, 0, 1, ⟨fun _ => 0⟩, some ⟨some 0⟩⟩⟩).2.iters[0]?).map
        (fun it => (it.items, it.index)) = some (0, 0)
    ∧ (poppler_index_iter_new ⟨[[]], []⟩
          ⟨⟨true, 0, 1, ⟨fun _ => 0⟩, some ⟨some 0⟩⟩⟩).2.lists[0]? = some []
    ∧ (poppler_index_iter_get_child
          (poppler_index_iter_new ⟨[[]], []⟩
            ⟨⟨true, 0, 1, ⟨fun _ => 0⟩, some ⟨some 0⟩⟩⟩).2 (some 0)).isNone = true
    ∧ (∀ (h : IndexHeap) (document : PopplerDocument),
        (poppler_index_iter_new h document).1 = none ↔
          (document.doc.outline = none
            ∨ ∃ outline, document.doc.outline = some outline ∧ outline.items = none)) := by
  refine ⟨rfl, rfl, rfl, rfl, ?_⟩
  intro h document
  unfold poppler_index_iter_new
  cases ho : document.doc.outline with
  | none => simp
  | some outline =>
    cases hi : outline.items with
    | none => simp [hi]
    | some items => simp [hi]

/-! ## C8: stepping the outline cursor -/

theorem poppler_index_iter_next_step (h : IndexHeap) (p : Nat) (it : PopplerIndexIter)
    (items : List OutlineItem) (hit : h.iters[p]? = some it)
    (hitems : h.lists[it.items]? = some items) :
    poppler_index_iter_next h (some p) =
      some (decide (it.index + 1 < items.length),
        { h with iters := h.iters.set p { it with index := it.index + 1 } }) := by
  unfold poppler_index_iter_next
  simp only [hit, hitems]
  by_cases hlt : it.index + 1 < items.length
  · have : ¬ (it.index + 1 ≥ items.length) := by omega
    simp [hlt, this]
  · have : it.index + 1 ≥ items.length := by omega
    simp [hlt, this]

theorem getElem?_set_self_of_some {α : Type} (l : List α) (p : Nat) (a b : α)
    (h : l[p]? = some a) : (l.set p b)[p]? = some b := by
  have hp : p < l.length := by
    rcases Nat.lt_or_ge p l.length with hlt | hge
    · exact hlt
    · rw [List.getElem?_eq_none hge] at h; exact absurd h (by simp)
  simp [List.getElem?_set, hp]

theorem index_iter_next_calls_run (items : List OutlineItem) (p : Nat) (k : Nat) :
    ∀ (h : IndexHeap) (it : PopplerIndexIter), h.iters[p]? = some it →
      h.lists[it.items]? = some items →
      ∃ rs h1, index_iter_next_calls k h p = some (rs, h1)
        ∧ rs = (List.range k).map (fun j : Nat => decide (it.index + 1 + (j : Int) < items.length))
        ∧ h1.lists = h.lists
        ∧ h1.iters[p]? = some { it with index := it.index + k } := by
  induction k with
  | zero =>
    intro h it hit _
    exact ⟨[], h, rfl, rfl, rfl, by simpa using hit⟩
  | succ k ih =>
    intro h it hit hitems
    have hstep := poppler_index_iter_next_step h p it items hit hitems
    have hit1 : ({ h with iters := h.iters.set p { it with index := it.index + 1 } } :
        IndexHeap).iters[p]? = some { it with index := it.index + 1 } :=
      getElem?_set_self_of_some _ _ _ _ hit
    obtain ⟨rs, h1, hrun, hrs, hlists, hiter⟩ :=
      ih { h with iters := h.iters.set p { it with index := it.index + 1 } }
        { it with index := it.index + 1 } hit1 hitems
    refine ⟨decide (it.index + 1 < items.length) :: rs, h1, ?_, ?_, hlists, ?_⟩
    · simp only [index_iter_next_calls, hstep, hrun]
    · rw [hrs, List.range_succ_eq_map]
      simp only [List.map_cons, List.map_map]
      congr 1
      · simp
      · apply List.map_congr_left
        intro j _
        simp only [Function.comp, Nat.succ_eq_add_one, Nat.cast_add, Nat.cast_one]
        congr 1
        apply propext
        constructor <;> intro hh <;> omega
    · rw [hiter]
      simp only [Nat.cast_add, Nat.cast_one]
      congr 2
      omega

theorem map_range_lt_eq_replicate (n : Nat) (hn : 1 ≤ n) :
    (List.range n).map (fun j : Nat => decide ((0 : Int) + 1 + (j : Int) < (n : Int)))
      = List.replicate (n - 1) true ++ [false] := by
  obtain ⟨m, rfl⟩ : ∃ m, n = m + 1 := ⟨n - 1, by omega⟩
  rw [List.range_succ, List.map_append]
  congr 1
  · rw [Nat.add_sub_cancel, List.eq_replicate_iff]
    refine ⟨by simp, ?_⟩
    intro b hb
    rw [List.mem_map] at hb
    obtain ⟨j, hj, rfl⟩ := hb
    rw [List.mem_range] at hj
    simp only [decide_eq_true_eq]
    omega
  · simp
    omega

/-- C8: for a cursor at index 0 over a sibling list of `n >= 1` items, the
`j`-th of up to `n` successive calls of `poppler_index_iter_next` returns true
exactly when `j < n`, and after `k` calls the index is `k`: each call advances
the index by one. So the first `n - 1` calls return true, leaving the indices
1, ..., n - 1, all valid positions of the list, and the `n`-th call returns
false, with the index at `n`. The sibling lists are not changed. -/
theorem poppler_index_iter_next_visits_all (h : IndexHeap) (p : Nat) (it : PopplerIndexIter)
    (items : List OutlineItem) (hit : h.iters[p]? = some it)
    (hitems : h.lists[it.items]? = some items) (hindex : it.index = 0)
    (hn : 1 ≤ items.length) :
    (∀ k : Nat, k ≤ items.length → ∃ rs h1, index_iter_next_calls k h p = some (rs, h1)
        ∧ rs.length = k
        ∧ (∀ j : Nat, j < k → rs[j]? = some (decide (j + 1 < items.length)))
        ∧ h1.iters[p]? = some { it with index := (k : Int) }
        ∧ h1.lists = h.lists)
    ∧ (∃ h1, index_iter_next_calls items.length h p
        = some (List.replicate (items.length - 1) true ++ [false], h1)
        ∧ h1.iters[p]? = some { it with index := (items.length : Int) }) := by
  constructor
  · intro k _
    obtain ⟨rs, h1, hrun, hrs, hlists, hiter⟩ := index_iter_next_calls_run items p k h it hit
      hitems
    refine ⟨rs, h1, hrun, by simp [hrs], ?_, ?_, hlists⟩
    · intro j hj
      rw [hrs, hindex]
      simp only [List.getElem?_map, List.getElem?_range hj, Option.map_some', Option.some.injEq,
        decide_eq_decide]
      constructor <;> intro hh <;> omega
    · rw [hiter, hindex]; simp
  · obtain ⟨rs, h1, hrun, hrs, _, hiter⟩ :=
      index_iter_next_calls_run items p items.length h it hit hitems
    rw [hindex, map_range_lt_eq_replicate items.length hn] at hrs
    refine ⟨h1, by rw [hrun, hrs], ?_⟩
    rw [hiter, hindex]; simp

/-- Witness for `poppler_index_iter_next_visits_all`: a cursor at index 0
over a list of two items; the first call returns true, the second false. -/
theorem poppler_index_iter_next_visits_all_witness :
    ∃ h1, index_iter_next_calls 2
        ⟨[[⟨[65], true, false, none⟩, ⟨[66], true, false, none⟩]],
          [⟨⟨⟨true, 0, 1, ⟨fun _ => 0⟩, some ⟨some 0⟩⟩⟩, 0, 0⟩]⟩ 0
      = some ([true, false], h1)
      ∧ h1.iters[0]? = some ⟨⟨⟨true, 0, 1, ⟨fun _ => 0⟩, some ⟨some 0⟩⟩⟩, 0, 2⟩ :=
  (poppler_index_iter_next_visits_all
    ⟨[[⟨[65], true, false, none⟩, ⟨[66], true, false, none⟩]],
      [⟨⟨⟨true, 0, 1, ⟨fun _ => 0⟩, some ⟨some 0⟩⟩⟩, 0, 0⟩]⟩ 0
    ⟨⟨⟨true, 0, 1, ⟨fun _ => 0⟩, some ⟨some 0⟩⟩⟩, 0, 0⟩
    [⟨[65], true, false, none⟩, ⟨[66], true, false, none⟩] rfl rfl rfl (by decide)).2

/-! ## C9: the outcomes of a font scan -/

/-- C9 fails as stated: when the scan ran and found no font (the scanner
returns an empty list) `poppler_font_info_scan` stores a NULL iterator, the
same as when the scan could not run (the scanner returns NULL); the two
outcomes differ in the return value only. -/
theorem poppler_font_info_scan_no_fonts_is_null :
    poppler_font_info_scan ⟨[], []⟩ ⟨fun _ => some []⟩ 1 (some none)
        = (true, some none, ⟨[], []⟩)
    ∧ poppler_font_info_scan ⟨[], []⟩ ⟨fun _ => none⟩ 1 (some none)
        = (false, some none, ⟨[], []⟩)
    ∧ (poppler_font_info_scan ⟨[], []⟩ ⟨fun _ => some []⟩ 1 (some none)).2.1
        = (poppler_font_info_scan ⟨[], []⟩ ⟨fun _ => none⟩ 1 (some none)).2.1 := by
  decide

/-- C9, amended: called with a place for the iterator,
`poppler_font_info_scan` stores a NULL iterator and returns FALSE when the
scan could not run, stores a NULL iterator and returns TRUE when the scan ran
and found no font, and stores a new iterator at index 0 over the records and
returns TRUE when at least one font was found. The first two outcomes are told
apart by the return value, not by the iterator; both differ from the third in
the iterator. -/
theorem poppler_font_info_scan_outcomes (h : FontsHeap) (font_info : PopplerFontInfo)
    (n_pages : Int) (old : Option Nat) :
    (font_info.scan n_pages = none →
        poppler_font_info_scan h font_info n_pages (some old) = (false, some none, h))
    ∧ (font_info.scan n_pages = some [] →
        poppler_font_info_scan h font_info n_pages (some old) = (true, some none, h))
    ∧ (∀ items : List FontInfo, font_info.scan n_pages = some items → items ≠ [] →
        poppler_font_info_scan h font_info n_pages (some old) =
          (true, some (some h.iters.length),
            ⟨h.lists ++ [items], h.iters ++ [⟨h.lists.length, 0⟩]⟩)
        ∧ (h.iters ++ [(⟨h.lists.length, 0⟩ : PopplerFontsIter)])[h.iters.length]?
            = some ⟨h.lists.length, 0⟩
        ∧ (h.lists ++ [items])[h.lists.length]? = some items) := by
  refine ⟨?_, ?_, ?_⟩
  · intro hs
    simp [poppler_font_info_scan, hs]
  · intro hs
    simp [poppler_font_info_scan, hs]
  · intro items hs hne
    have hlen : items.length ≠ 0 := by
      intro h0
      exact hne (List.length_eq_zero.mp h0)
    refine ⟨?_, by simp, by simp⟩
    simp [poppler_font_info_scan, hs, hlen, poppler_fonts_iter_new]

/-- Witness for `poppler_font_info_scan_outcomes`: a scan that finds one
font. -/
theorem poppler_font_info_scan_outcomes_witness :
    poppler_font_info_scan ⟨[], []⟩ ⟨fun _ => some [⟨some [65], (7, 0)⟩]⟩ 1 (some none)
      = (true, some (some 0), ⟨[[⟨some [65], (7, 0)⟩]], [⟨0, 0⟩]⟩) :=
  ((poppler_font_info_scan_outcomes ⟨[], []⟩ ⟨fun _ => some [⟨some [65], (7, 0)⟩]⟩ 1
    none).2.2 [⟨some [65], (7, 0)⟩] rfl (by decide)).1

/-! ## C10: copies of the font cursor -/

theorem lt_length_of_getElem?_eq_some {α : Type} (l : List α) (p : Nat) (a : α)
    (h : l[p]? = some a) : p < l.length := by
  rcases Nat.lt_or_ge p l.length with hlt | hge
  · exact hlt
  · rw [List.getElem?_eq_none hge] at h; exact absurd h (by simp)

theorem FontInfo.map_copy (items : List FontInfo) : items.map FontInfo.copy = items := by
  induction items with
  | nil => rfl
  | cons a l ih => simp [FontInfo.copy, ih]

theorem poppler_fonts_iter_next_step (h : FontsHeap) (p : Nat) (it : PopplerFontsIter)
    (items : List FontInfo) (hit : h.iters[p]? = some it)
    (hitems : h.lists[it.items]? = some items) :
    poppler_fonts_iter_next h (some p) =
      some (decide (it.index + 1 < items.length),
        { h with iters := h.iters.set p { it with index := it.index + 1 } }) := by
  unfold poppler_fonts_iter_next
  simp only [hit, hitems]
  by_cases hlt : it.index + 1 < items.length
  · have : ¬ (it.index + 1 ≥ items.length) := by omega
    simp [hlt, this]
  · have : it.index + 1 ≥ items.length := by omega
    simp [hlt, this]

/-- C10: for a font cursor `it` (at the address `p`, over the list `items`)
`poppler_fonts_iter_copy` returns a new cursor with the same index, over a
list of its own (at another address) that has the same records, in the same
places; the original cursor and its list are as before. Advancing the copy
with `poppler_fonts_iter_next` moves the copy only and leaves the original's
index and records as they were, and advancing the original leaves the copy's
index and records as they were. -/
theorem poppler_fonts_iter_copy_independent (h : FontsHeap) (p : Nat) (it : PopplerFontsIter)
    (items : List FontInfo) (hit : h.iters[p]? = some it)
    (hitems : h.lists[it.items]? = some items) :
    ∃ (q : Nat) (h1 : FontsHeap) (c : PopplerFontsIter),
      poppler_fonts_iter_copy h (some p) = some (some q, h1)
      ∧ q ≠ p
      ∧ h1.iters[q]? = some c
      ∧ c.index = it.index
      ∧ c.items ≠ it.items
      ∧ h1.lists[c.items]? = some items
      ∧ h1.iters[p]? = some it
      ∧ h1.lists[it.items]? = some items
      ∧ (∃ r h2, poppler_fonts_iter_next h1 (some q) = some (r, h2)
          ∧ h2.iters[q]? = some { c with index := c.index + 1 }
          ∧ h2.iters[p]? = some it
          ∧ h2.lists[it.items]? = some items
          ∧ h2.lists[c.items]? = some items)
      ∧ (∃ r h2, poppler_fonts_iter_next h1 (some p) = some (r, h2)
          ∧ h2.iters[p]? = some { it with index := it.index + 1 }
          ∧ h2.iters[q]? = some c
          ∧ h2.lists[c.items]? = some items
          ∧ h2.lists[it.items]? = some items) := by
  have hp : p < h.iters.length := lt_length_of_getElem?_eq_some _ _ _ hit
  have hi : it.items < h.lists.length := lt_length_of_getElem?_eq_some _ _ _ hitems
  have hcopy : poppler_fonts_iter_copy h (some p) =
      some (some h.iters.length,
        ⟨h.lists ++ [items], h.iters ++ [{ it with items := h.lists.length }]⟩) := by
    unfold poppler_fonts_iter_copy
    simp only [hit, hitems, FontInfo.map_copy]
  have hq : (h.iters ++ [({ it with items := h.lists.length } : PopplerFontsIter)])[
      h.iters.length]? = some { it with items := h.lists.length } := by simp
  have hpo : (h.iters ++ [({ it with items := h.lists.length } : PopplerFontsIter)])[p]?
      = some it := by
    rw [List.getElem?_append_left hp]; exact hit
  have hlc : (h.lists ++ [items])[h.lists.length]? = some items := by simp
  have hlo : (h.lists ++ [items])[it.items]? = some items := by
    rw [List.getElem?_append_left hi]; exact hitems
  have hne : h.iters.length ≠ p := by omega
  refine ⟨h.iters.length, _, { it with items := h.lists.length }, hcopy, hne, hq, rfl, ?_,
    hlc, hpo, hlo, ?_, ?_⟩
  · show h.lists.length ≠ it.items
    omega
  · refine ⟨_, _, poppler_fonts_iter_next_step _ h.iters.length
      { it with items := h.lists.length } items hq hlc, ?_, ?_, hlo, hlc⟩
    · exact getElem?_set_self_of_some _ _ _ _ hq
    · show ((h.iters ++ [_]).set h.iters.length _)[p]? = some it
      rw [List.getElem?_set_ne hne]; exact hpo
  · refine ⟨_, _, poppler_fonts_iter_next_step _ p it items hpo hlo, ?_, ?_, hlc, hlo⟩
    · exact getElem?_set_self_of_some _ _ _ _ hpo
    · show ((h.iters ++ [_]).set p _)[h.iters.length]? = some _
      rw [List.getElem?_set_ne (Ne.symm hne)]; exact hq

/-- Witness for `poppler_fonts_iter_copy_independent`: a cursor at index 1
over a list of two records. -/
theorem poppler_fonts_iter_copy_independent_witness :
    ∃ (q : Nat) (h1 : FontsHeap) (c : PopplerFontsIter),
      poppler_fonts_iter_copy ⟨[[⟨some [65], (7, 0)⟩, ⟨none, (8, 0)⟩]], [⟨0, 1⟩]⟩ (some 0)
        = some (some q, h1)
      ∧ q ≠ 0
      ∧ h1.iters[q]? = some c
      ∧ c.index = (⟨0, 1⟩ : PopplerFontsIter).index
      ∧ c.items ≠ (⟨0, 1⟩ : PopplerFontsIter).items
      ∧ h1.lists[c.items]? = some [⟨some [65], (7, 0)⟩, ⟨none, (8, 0)⟩]
      ∧ h1.iters[0]? = some ⟨0, 1⟩
      ∧ h1.lists[(⟨0, 1⟩ : PopplerFontsIter).items]?
          = some [⟨some [65], (7, 0)⟩, ⟨none, (8, 0)⟩]
      ∧ (∃ r h2, poppler_fonts_iter_next h1 (some q) = some (r, h2)
          ∧ h2.iters[q]? = some { c with index := c.index + 1 }
          ∧ h2.iters[0]? = some ⟨0, 1⟩
          ∧ h2.lists[(⟨0, 1⟩ : PopplerFontsIter).items]?
              = some [⟨some [65], (7, 0)⟩, ⟨none, (8, 0)⟩]
          ∧ h2.lists[c.items]? = some [⟨some [65], (7, 0)⟩, ⟨none, (8, 0)⟩])
      ∧ (∃ r h2, poppler_fonts_iter_next h1 (some 0) = some (r, h2)
          ∧ h2.iters[0]? = some { (⟨0, 1⟩ : PopplerFontsIter) with
              index := (⟨0, 1⟩ : PopplerFontsIter).index + 1 }
          ∧ h2.iters[q]? = some c
          ∧ h2.lists[c.items]? = some [⟨some [65], (7, 0)⟩, ⟨none, (8, 0)⟩]
          ∧ h2.lists[(⟨0, 1⟩ : PopplerFontsIter).items]?
              = some [⟨some [65], (7, 0)⟩, ⟨none, (8, 0)⟩]) :=
  poppler_fonts_iter_copy_independent
    ⟨[[⟨some [65], (7, 0)⟩, ⟨none, (8, 0)⟩]], [⟨0, 1⟩]⟩ 0 ⟨0, 1⟩
    [⟨some [65], (7, 0)⟩, ⟨none, (8, 0)⟩] rfl rfl

/-! ## C11: copies of the outline cursor -/

theorem poppler_index_iter_copy_eq (h : IndexHeap) (p : Nat) (it : PopplerIndexIter)
    (hit : h.iters[p]? = some it) :
    poppler_index_iter_copy h (some p) =
      some (some h.iters.length, { h with iters := h.iters ++ [it] }) := by
  unfold poppler_index_iter_copy
  simp only [hit]

/-- C11 fails as stated: in the sample heap the cursor at the address 0 stands
at index 0 of a list of two items; its copy is the cursor at the address 1,
and after `poppler_index_iter_next` on the copy the copy stands at index 1
while the original still stands at index 0, over the same list. -/
theorem poppler_index_iter_copy_keeps_original_index :
    ∃ h1 h2, poppler_index_iter_copy sample_heap (some 0) = some (some 1, h1)
      ∧ poppler_index_iter_next h1 (some 1) = some (true, h2)
      ∧ (h2.iters[1]?).map (fun it => (it.items, it.index)) = some (0, 1)
      ∧ (h2.iters[0]?).map (fun it => (it.items, it.index)) = some (0, 0) :=
  ⟨_, _, rfl, rfl, rfl, rfl⟩

/-- C11, amended: for an outline cursor `it` (at the address `p`)
`poppler_index_iter_copy` returns a new cursor with the same document, the
same sibling-list reference and the same index, and copies no list; the index
is the copy's own: `poppler_index_iter_next` on the copy advances the copy by
one and leaves the original cursor's index, and the lists, as they were. -/
theorem poppler_index_iter_copy_shares_list (h : IndexHeap) (p : Nat) (it : PopplerIndexIter)
    (items : List OutlineItem) (hit : h.iters[p]? = some it)
    (hitems : h.lists[it.items]? = some items) :
    ∃ (q : Nat) (h1 : IndexHeap),
      poppler_index_iter_copy h (some p) = some (some q, h1)
      ∧ q ≠ p
      ∧ h1.iters[q]? = some it
      ∧ h1.iters[p]? = some it
      ∧ h1.lists = h.lists
      ∧ ∃ r h2, poppler_index_iter_next h1 (some q) = some (r, h2)
          ∧ h2.iters[q]? = some { it with index := it.index + 1 }
          ∧ h2.iters[p]? = some it
          ∧ h2.lists = h.lists := by
  have hp : p < h.iters.length := lt_length_of_getElem?_eq_some _ _ _ hit
  have hne : h.iters.length ≠ p := by omega
  have hq : (h.iters ++ [it])[h.iters.length]? = some it := by simp
  have hpo : (h.iters ++ [it])[p]? = some it := by
    rw [List.getElem?_append_left hp]; exact hit
  refine ⟨h.iters.length, _, poppler_index_iter_copy_eq h p it hit, hne, hq, hpo, rfl, ?_⟩
  refine ⟨_, _, poppler_index_iter_next_step { h with iters := h.iters ++ [it] }
    h.iters.length it items hq hitems, ?_, ?_, rfl⟩
  · exact getElem?_set_self_of_some _ _ _ _ hq
  · show ((h.iters ++ [it]).set h.iters.length _)[p]? = some it
    rw [List.getElem?_set_ne hne]; exact hpo

/-- Witness for `poppler_index_iter_copy_shares_list`: the cursor of the
sample heap. -/
theorem poppler_index_iter_copy_shares_list_witness :
    ∃ (q : Nat) (h1 : IndexHeap),
      poppler_index_iter_copy sample_heap (some 0) = some (some q, h1)
      ∧ q ≠ 0
      ∧ h1.iters[q]? = some ⟨sample_document, 0, 0⟩
      ∧ h1.iters[0]? = some ⟨sample_document, 0, 0⟩
      ∧ h1.lists = sample_heap.lists
      ∧ ∃ r h2, poppler_index_iter_next h1 (some q) = some (r, h2)
          ∧ h2.iters[q]? = some { (⟨sample_document, 0, 0⟩ : PopplerIndexIter) with
              index := (⟨sample_document, 0, 0⟩ : PopplerIndexIter).index + 1 }
          ∧ h2.iters[0]? = some ⟨sample_document, 0, 0⟩
          ∧ h2.lists = sample_heap.lists :=
  poppler_index_iter_copy_shares_list sample_heap 0 ⟨sample_document, 0, 0⟩
    [⟨[65], true, false, none⟩, ⟨[66], true, false, none⟩] rfl rfl

/-! ## C12: the cursor invariant -/

theorem cursor_in_range_iff (h : IndexHeap) (p : Nat) :
    cursor_in_range h p = true ↔
      ∃ it items, h.iters[p]? = some it ∧ h.lists[it.items]? = some items
        ∧ 0 ≤ it.index ∧ it.index < items.length := by
  unfold cursor_in_range
  cases hit : h.iters[p]? with
  | none => simp
  | some it =>
    cases hl : h.lists[it.items]? with
    | none => simp [hl]
    | some items => simp [hl]

theorem cursor_in_range_fresh (lists : List (List OutlineItem)) (iters : List PopplerIndexIter)
    (document : PopplerDocument) (a : Nat) :
    cursor_in_range ⟨lists, iters ++ [⟨document, a, 0⟩]⟩ iters.length = true ↔
      ∃ items, lists[a]? = some items ∧ items ≠ [] := by
  rw [cursor_in_range_iff]
  have hq : (iters ++ [(⟨document, a, 0⟩ : PopplerIndexIter)])[iters.length]?
      = some ⟨document, a, 0⟩ := by simp
  constructor
  · rintro ⟨it, items, hit, hl, _, hlt⟩
    rw [hq] at hit
    cases hit
    refine ⟨items, hl, ?_⟩
    intro hnil
    rw [hnil] at hlt
    simp at hlt
  · rintro ⟨items, hl, hne⟩
    refine ⟨_, items, hq, hl, le_refl _, ?_⟩
    have : 0 < items.length := List.length_pos.mpr hne
    show (0 : Int) < items.length
    exact_mod_cast this

theorem poppler_index_iter_new_in_range (h : IndexHeap) (document : PopplerDocument)
    (p : Nat) (h1 : IndexHeap) (hnew : poppler_index_iter_new h document = (some p, h1)) :
    cursor_in_range h1 p = true ↔
      ∃ outline a items, document.doc.outline = some outline ∧ outline.items = some a
        ∧ h.lists[a]? = some items ∧ items ≠ [] := by
  unfold poppler_index_iter_new at hnew
  cases ho : document.doc.outline with
  | none => simp [ho] at hnew
  | some outline =>
    cases hi : outline.items with
    | none => simp [ho, hi] at hnew
    | some a =>
      simp only [ho, hi, Prod.mk.injEq, Option.some.injEq] at hnew
      obtain ⟨hp, hh⟩ := hnew
      subst hp hh
      rw [cursor_in_range_fresh]
      constructor
      · rintro ⟨items, hl, hne⟩
        exact ⟨outline, a, items, rfl, hi, hl, hne⟩
      · rintro ⟨outline2, a2, items, ho2, hi2, hl, hne⟩
        cases ho2
        rw [hi] at hi2
        cases hi2
        exact ⟨items, hl, hne⟩

theorem poppler_index_iter_copy_in_range (h : IndexHeap) (p : Nat)
    (hp : cursor_in_range h p = true) :
    ∃ q h1, poppler_index_iter_copy h (some p) = some (some q, h1)
      ∧ cursor_in_range h1 q = true := by
  obtain ⟨it, items, hit, hl, h0, hlt⟩ := (cursor_in_range_iff h p).1 hp
  refine ⟨h.iters.length, _, poppler_index_iter_copy_eq h p it hit, ?_⟩
  rw [cursor_in_range_iff]
  exact ⟨it, items, by simp, hl, h0, hlt⟩

theorem poppler_index_iter_next_in_range (h : IndexHeap) (p : Nat)
    (hp : cursor_in_range h p = true) :
    ∃ r h1, poppler_index_iter_next h (some p) = some (r, h1)
      ∧ (r = true → cursor_in_range h1 p = true) := by
  obtain ⟨it, items, hit, hl, h0, _⟩ := (cursor_in_range_iff h p).1 hp
  refine ⟨_, _, poppler_index_iter_next_step h p it items hit hl, ?_⟩
  intro hr
  have hlt : it.index + 1 < items.length := by simpa using hr
  rw [cursor_in_range_iff]
  exact ⟨{ it with index := it.index + 1 }, items, getElem?_set_self_of_some _ _ _ _ hit, hl,
    by show 0 ≤ it.index + 1; omega, hlt⟩

theorem poppler_index_iter_get_child_in_range (h : IndexHeap) (p : Nat)
    (hp : cursor_in_range h p = true) :
    ∃ res h1, poppler_index_iter_get_child h (some p) = some (res, h1)
      ∧ ∀ q, res = some q →
          ∃ c, h1.iters[q]? = some c ∧ c.index = 0
            ∧ (cursor_in_range h1 q = true ↔
                ∃ kids, h.lists[c.items]? = some kids ∧ kids ≠ []) := by
  obtain ⟨it, items, hit, hl, h0, hlt⟩ := (cursor_in_range_iff h p).1 hp
  have hn : ¬ it.index < 0 := by omega
  have hidx : it.index.toNat < items.length := by omega
  unfold poppler_index_iter_get_child
  simp only [hit, hl, hn, if_false, List.getElem?_eq_getElem hidx]
  cases hk : (items[it.index.toNat]).hasKids with
  | false => exact ⟨none, h, rfl, by intro q hq; cases hq⟩
  | true =>
    cases hkids : (items[it.index.toNat]).kids with
    | none => exact ⟨none, h, rfl, by intro q hq; cases hq⟩
    | some kids =>
      refine ⟨_, _, rfl, ?_⟩
      intro q hq
      cases hq
      exact ⟨⟨it.document, kids, 0⟩, by simp, rfl, cursor_in_range_fresh _ _ _ _⟩

/-- C12, the code at an empty list: the cursor `poppler_index_iter_new`
returns for a document whose list of top-level items is empty stands at index
0 of a list of length 0, outside `[0, length)`; so does the cursor
`poppler_index_iter_get_child` returns for an item whose list of children is
empty. In general the cursor of `poppler_index_iter_new` is in range exactly
when the list has an item, and so is that of `poppler_index_iter_get_child`
on a cursor in range; `poppler_index_iter_copy` of a cursor in range is in
range, and after a `poppler_index_iter_next` that returns true on a cursor in
range the cursor is in range. -/
theorem cursor_invariant_breaks_at_empty_list :
    (poppler_index_iter_new empty_outline_heap sample_document).1 = some 0
    ∧ cursor_in_range (poppler_index_iter_new empty_outline_heap sample_document).2 0 = false
    ∧ cursor_in_range empty_kids_heap 0 = true
    ∧ (∃ h1, poppler_index_iter_get_child empty_kids_heap (some 0) = some (some 1, h1)
        ∧ cursor_in_range h1 1 = false)
    ∧ (∀ (h : IndexHeap) (document : PopplerDocument) (p : Nat) (h1 : IndexHeap),
        poppler_index_iter_new h document = (some p, h1) →
        (cursor_in_range h1 p = true ↔
          ∃ outline a items, document.doc.outline = some outline ∧ outline.items = some a
            ∧ h.lists[a]? = some items ∧ items ≠ []))
    ∧ (∀ (h : IndexHeap) (p : Nat), cursor_in_range h p = true →
        ∃ res h1, poppler_index_iter_get_child h (some p) = some (res, h1)
          ∧ ∀ q, res = some q →
              ∃ c, h1.iters[q]? = some c ∧ c.index = 0
                ∧ (cursor_in_range h1 q = true ↔
                    ∃ kids, h.lists[c.items]? = some kids ∧ kids ≠ []))
    ∧ (∀ (h : IndexHeap) (p : Nat), cursor_in_range h p = true →
        ∃ q h1, poppler_index_iter_copy h (some p) = some (some q, h1)
          ∧ cursor_in_range h1 q = true)
    ∧ (∀ (h : IndexHeap) (p : Nat), cursor_in_range h p = true →
        ∃ r h1, poppler_index_iter_next h (some p) = some (r, h1)
          ∧ (r = true → cursor_in_range h1 p = true)) :=
  ⟨rfl, rfl, rfl, ⟨_, rfl, rfl⟩, poppler_index_iter_new_in_range,
    poppler_index_iter_get_child_in_range, poppler_index_iter_copy_in_range,
    poppler_index_iter_next_in_range⟩

/-! ## C13: text after the fourteen digits -/

/-- The six-field scan of fourteen digit chars followed by any text. -/
theorem sscanf_d_six_fields_then (y mo d h mi s z : List Nat)
    (hy : is_digits 4 y) (hmo : is_digits 2 mo) (hd : is_digits 2 d) (hh : is_digits 2 h)
    (hmi : is_digits 2 mi) (hs : is_digits 2 s) :
    sscanf_d [4, 2, 2, 2, 2, 2] (y ++ (mo ++ (d ++ (h ++ (mi ++ (s ++ z)))))) [] =
      ⟨6, [decimal y, decimal mo, decimal d, decimal h, decimal mi, decimal s]⟩ := by
  simp only [sscanf_d, scan_d_digits 4 y _ hy.1 (by decide) hy.2,
    scan_d_digits 2 mo _ hmo.1 (by decide) hmo.2, scan_d_digits 2 d _ hd.1 (by decide) hd.2,
    scan_d_digits 2 h _ hh.1 (by decide) hh.2, scan_d_digits 2 mi _ hmi.1 (by decide) hmi.2,
    scan_d_digits 2 s _ hs.1 (by decide) hs.2]
  simp

theorem date_to_tm_six_fields_then (y mo d h mi s z : List Nat)
    (hy : is_digits 4 y) (hmo : is_digits 2 mo) (hd : is_digits 2 d) (hh : is_digits 2 h)
    (hmi : is_digits 2 mi) (hs : is_digits 2 s) (hyear : 1930 ≤ decimal y)
    (pre : List Nat) (hpre : pre = [] ∨ pre = prefix_D) :
    date_to_tm (pre ++ (y ++ (mo ++ (d ++ (h ++ (mi ++ (s ++ z))))))) =
      some (fill_tm (decimal y) (decimal mo) (decimal d) (decimal h) (decimal mi)
        (decimal s)) := by
  have hscan := sscanf_d_six_fields_then y mo d h mi s z hy hmo hd hh hmi hs
  have hskip : skip_prefix_D (pre ++ (y ++ (mo ++ (d ++ (h ++ (mi ++ (s ++ z)))))))
      = y ++ (mo ++ (d ++ (h ++ (mi ++ (s ++ z))))) := by
    rcases hpre with rfl | rfl
    · match y, hy with
      | [], hy => exact absurd hy.1 (by simp)
      | c :: cs, hy =>
        exact skip_prefix_D_digit c _ (hy.2 c (List.mem_cons_self _ _))
    · exact skip_prefix_D_cons _
  unfold date_to_tm
  simp only [hskip, hscan]
  have hny : ¬ decimal y < 1930 := not_lt.mpr hyear
  simp [hny]

theorem date_string_of_six_fields_then (y mo d h mi s z : List Nat)
    (hy : is_digits 4 y) (hmo : is_digits 2 mo) (hd : is_digits 2 d) (hh : is_digits 2 h)
    (hmi : is_digits 2 mi) (hs : is_digits 2 s)
    (pre : List Nat) (hpre : pre = [] ∨ pre = prefix_D) :
    date_string_of (pre ++ (y ++ (mo ++ (d ++ (h ++ (mi ++ (s ++ z)))))))
      = some (pre ++ (y ++ (mo ++ (d ++ (h ++ (mi ++ (s ++ cstr z))))))) := by
  have hp0 : ∀ c ∈ pre, c ≠ 0 := by
    rcases hpre with rfl | rfl
    · intro c hc; simp at hc
    · intro c hc; simp [prefix_D] at hc; omega
  have hm : has_unicode_marker (pre ++ (y ++ (mo ++ (d ++ (h ++ (mi ++ (s ++ z)))))))
      = false := by
    rcases hpre with rfl | rfl
    · match y, hy with
      | [], hy => exact absurd hy.1 (by simp)
      | c :: cs, hy =>
        have := isdigit_bounds (hy.2 c (List.mem_cons_self _ _))
        exact has_unicode_marker_cons_lt c _ (by omega)
    · exact has_unicode_marker_cons_lt 68 _ (by decide)
  unfold date_string_of
  simp only [hm, Bool.false_eq_true, if_false, g_strndup, GooString.getLength, List.take_length]
  rw [cstr_append_of_ne_zero hp0, cstr_append_of_ne_zero (is_digits_ne_zero hy),
    cstr_append_of_ne_zero (is_digits_ne_zero hmo), cstr_append_of_ne_zero (is_digits_ne_zero hd),
    cstr_append_of_ne_zero (is_digits_ne_zero hh), cstr_append_of_ne_zero (is_digits_ne_zero hmi),
    cstr_append_of_ne_zero (is_digits_ne_zero hs)]

theorem cstr_six_fields_then (y mo d h mi s z : List Nat)
    (hy : is_digits 4 y) (hmo : is_digits 2 mo) (hd : is_digits 2 d) (hh : is_digits 2 h)
    (hmi : is_digits 2 mi) (hs : is_digits 2 s)
    (pre : List Nat) (hpre : pre = [] ∨ pre = prefix_D) :
    cstr (pre ++ (y ++ (mo ++ (d ++ (h ++ (mi ++ (s ++ cstr z)))))))
      = pre ++ (y ++ (mo ++ (d ++ (h ++ (mi ++ (s ++ cstr z)))))) := by
  have hp0 : ∀ c ∈ pre, c ≠ 0 := by
    rcases hpre with rfl | rfl
    · intro c hc; simp at hc
    · intro c hc; simp [prefix_D] at hc; omega
  rw [cstr_append_of_ne_zero hp0, cstr_append_of_ne_zero (is_digits_ne_zero hy),
    cstr_append_of_ne_zero (is_digits_ne_zero hmo), cstr_append_of_ne_zero (is_digits_ne_zero hd),
    cstr_append_of_ne_zero (is_digits_ne_zero hh), cstr_append_of_ne_zero (is_digits_ne_zero hmi),
    cstr_append_of_ne_zero (is_digits_ne_zero hs), cstr_cstr]

theorem info_dict_get_date_fields_then (mktime : Tm → Int × Tm)
    (y mo d h mi s z : List Nat)
    (hy : is_digits 4 y) (hmo : is_digits 2 mo) (hd : is_digits 2 d) (hh : is_digits 2 h)
    (hmi : is_digits 2 mi) (hs : is_digits 2 s) (hyear : 1930 ≤ decimal y)
    (pre : List Nat) (hpre : pre = [] ∨ pre = prefix_D)
    (info_dict : Dict) (key : String) (value : GValue)
    (hlookup : info_dict.lookup key =
      .objString (pre ++ (y ++ (mo ++ (d ++ (h ++ (mi ++ (s ++ z)))))))) :
    info_dict_get_date mktime info_dict key value =
      if (mktime (fill_tm (decimal y) (decimal mo) (decimal d) (decimal h) (decimal mi)
          (decimal s))).1 = -1 then some value
      else some (g_value_set_int value
        (mktime (mktime (fill_tm (decimal y) (decimal mo) (decimal d) (decimal h) (decimal mi)
          (decimal s))).2).1) := by
  rw [info_dict_get_date_eq mktime info_dict key value _ _ hlookup
      (date_string_of_six_fields_then y mo d h mi s z hy hmo hd hh hmi hs pre hpre),
    cstr_six_fields_then y mo d h mi s z hy hmo hd hh hmi hs pre hpre,
    date_to_tm_six_fields_then y mo d h mi s (cstr z) hy hmo hd hh hmi hs hyear pre hpre]

/-- C13 fails as stated: for the date `D:19250101120000`, whose year is below
1930, the suffix `Z` changes the result. Alone the date gives the fields
1925-01-01 12:00:00; followed by `Z` the text is longer than 14 chars, the
century re-scan applies and the fields are 2150-10-11 20:00:00. The same
happens with the suffix `+01'00'`. With `mktime` in the UTC time zone the two
values set differ. -/
theorem info_dict_get_date_suffix_changes_old_date :
    date_to_tm (chars "D:19250101120000") = some (fill_tm 1925 1 1 12 0 0)
    ∧ date_to_tm (chars "D:19250101120000" ++ chars "Z") = some (fill_tm 2150 10 11 20 0 0)
    ∧ date_to_tm (chars "D:19250101120000" ++ [43, 48, 49, 39, 48, 48, 39])
        = some (fill_tm 2150 10 11 20 0 0)
    ∧ info_dict_get_date mktime_utc
        [("ModDate", .objString (chars "D:19250101120000"))] "ModDate" .unset
        = some (.int (-1420027200))
    ∧ info_dict_get_date mktime_utc
        [("ModDate", .objString (chars "D:19250101120000" ++ chars "Z"))] "ModDate" .unset
        = some (.int 1409837504)
    ∧ info_dict_get_date mktime_utc
        [("ModDate", .objString (chars "D:19250101120000" ++ chars "Z"))] "ModDate" .unset
        ≠ info_dict_get_date mktime_utc
            [("ModDate", .objString (chars "D:19250101120000"))] "ModDate" .unset := by
  decide

/-- C13, amended: for a date `d` made of an optional `D:` and the fourteen
digits YYYYMMDDHHmmSS with YYYY at least 1930, and any text `z` after it, in
particular a timezone offset `Z`, `+HH'mm'` or `-HH'mm'`,
`info_dict_get_date` on `d` followed by `z` hands `mktime` the same fields and
gives the same result as on `d` alone: the offset is not parsed. -/
theorem info_dict_get_date_ignores_suffix (mktime : Tm → Int × Tm)
    (y mo d h mi s z : List Nat)
    (hy : is_digits 4 y) (hmo : is_digits 2 mo) (hd : is_digits 2 d) (hh : is_digits 2 h)
    (hmi : is_digits 2 mi) (hs : is_digits 2 s) (hyear : 1930 ≤ decimal y)
    (pre : List Nat) (hpre : pre = [] ∨ pre = prefix_D)
    (alone followed : Dict) (key : String) (value : GValue)
    (halone : alone.lookup key =
      .objString (pre ++ (y ++ (mo ++ (d ++ (h ++ (mi ++ s)))))))
    (hfollowed : followed.lookup key =
      .objString (pre ++ (y ++ (mo ++ (d ++ (h ++ (mi ++ (s ++ z)))))))) :
    date_to_tm (pre ++ (y ++ (mo ++ (d ++ (h ++ (mi ++ (s ++ z)))))))
        = date_to_tm (pre ++ (y ++ (mo ++ (d ++ (h ++ (mi ++ s))))))
    ∧ date_to_tm (pre ++ (y ++ (mo ++ (d ++ (h ++ (mi ++ (s ++ z)))))))
        = some (fill_tm (decimal y) (decimal mo) (decimal d) (decimal h) (decimal mi)
            (decimal s))
    ∧ info_dict_get_date mktime followed key value
        = info_dict_get_date mktime alone key value := by
  have h1 := date_to_tm_six_fields_then y mo d h mi s z hy hmo hd hh hmi hs hyear pre hpre
  have h2 := date_to_tm_six_fields_then y mo d h mi s [] hy hmo hd hh hmi hs hyear pre hpre
  rw [List.append_nil] at h2
  have halone2 : alone.lookup key =
      .objString (pre ++ (y ++ (mo ++ (d ++ (h ++ (mi ++ (s ++ []))))))) := by
    rw [List.append_nil]; exact halone
  refine ⟨h1.trans h2.symm, h1, ?_⟩
  rw [info_dict_get_date_fields_then mktime y mo d h mi s z hy hmo hd hh hmi hs hyear pre
      hpre followed key value hfollowed,
    info_dict_get_date_fields_then mktime y mo d h mi s [] hy hmo hd hh hmi hs hyear pre
      hpre alone key value halone2]

/-- Witness for `info_dict_get_date_ignores_suffix`: the date
`D:19990101120000` alone and followed by `+01'00'`, in the UTC time zone. -/
theorem info_dict_get_date_ignores_suffix_witness :
    date_to_tm (prefix_D ++ (chars "1999" ++ (chars "01" ++ (chars "01" ++ (chars "12" ++
        (chars "00" ++ (chars "00" ++ [43, 48, 49, 39, 48, 48, 39])))))))
      = some (fill_tm 1999 1 1 12 0 0)
    ∧ info_dict_get_date mktime_utc
        [("ModDate", .objString (chars "D:19990101120000" ++ [43, 48, 49, 39, 48, 48, 39]))]
        "ModDate" .unset
      = info_dict_get_date mktime_utc
        [("ModDate", .objString (chars "D:19990101120000"))] "ModDate" .unset :=
  have h := info_dict_get_date_ignores_suffix mktime_utc (chars "1999") (chars "01")
    (chars "01") (chars "12") (chars "00") (chars "00") [43, 48, 49, 39, 48, 48, 39]
    (by decide) (by decide) (by decide) (by decide) (by decide) (by decide) (by decide)
    prefix_D (Or.inr rfl)
    [("ModDate", .objString (chars "D:19990101120000"))]
    [("ModDate", .objString (chars "D:19990101120000" ++ [43, 48, 49, 39, 48, 48, 39]))]
    "ModDate" .unset (by decide) (by decide)
  ⟨h.2.1, h.2.2⟩

end Poppler
